import Mathlib

/-!
# FPGA UART extcap bridge

A shallow embedding of `src/wireshark/wireshark_extcap/src/main.cpp`: the pcap
framing (`PcapGlobalHeader`, `pcaprec_hdr_t`), the capture function
`run_extcap_capture` and the argument handling of `main`.

The program talks to the operating system (a FIFO, a UART device, the clock).
Every answer of the operating system is supplied by an `Env` value, and every
effect of the program is recorded, in program order, as an `Event`.  Machine
integers are `Int`/`Nat` with explicit reduction modulo `2 ^ 32` where the
source converts to `uint32_t`.
-/

namespace Extcap

/-! ## Bytes and byte order -/

/-- Byte order of the host: the source writes its structs from memory as they are. -/
inductive Endian where
  | little
  | big
  deriving DecidableEq, Repr

/-- The `w` low-order bytes of `v`, least significant first. -/
def le_bytes : Nat → Nat → List Nat
  | 0, _ => []
  | w + 1, v => v % 256 :: le_bytes w (v / 256)

/-- Memory image of an unsigned integer of `w` bytes holding `v`. -/
def encode (o : Endian) (w : Nat) (v : Nat) : List Nat :=
  match o with
  | .little => le_bytes w v
  | .big => (le_bytes w v).reverse

/-- Value of a byte string read least significant byte first. -/
def le_value : List Nat → Nat
  | [] => 0
  | b :: bs => b + 256 * le_value bs

/-- Value of an unsigned integer read back from its memory image. -/
def decode (o : Endian) (bs : List Nat) : Nat :=
  match o with
  | .little => le_value bs
  | .big => le_value bs.reverse

/-- Conversion of a signed value to `uint32_t` (and the bit pattern of an `int32_t`). -/
def to_uint32 (v : Int) : Nat := (v % 2 ^ 32).toNat

/-- The slice `bs[off .. off + len)`. -/
def slice (bs : List Nat) (off len : Nat) : List Nat := (bs.drop off).take len

/-! ## Effects and the environment -/

/-- Result of a system call: its return value and the `errno` it leaves on failure. -/
structure SysResult where
  ret : Int
  errno : Nat
  deriving DecidableEq, Repr

/-- One observable effect of the program. -/
inductive Event where
  /-- text sent to `std::cout` -/
  | stdout (text : String)
  /-- text sent to `std::cerr` -/
  | stderr (text : String)
  /-- the call `signal(SIGPIPE, SIG_IGN)` -/
  | ignore_sigpipe
  /-- the call `open(fifo_path, O_WRONLY)` -/
  | open_fifo (path : String)
  /-- the call `open(device_path, O_RDWR | O_NOCTTY)` -/
  | open_uart (path : String)
  /-- the call `ioctl(fd, TCGETS2, &tio)` -/
  | tcgets2
  /-- the call `ioctl(fd, TCSETS2, &tio)` with `c_ispeed = c_ospeed = speed` -/
  | tcsets2 (speed : Int)
  /-- the call `read(fd_uart, buffer, count)` and its return value -/
  | read_uart (count : Int) (ret : Int)
  /-- the call `write(fd_fifo, data, |data|)` and its result -/
  | write_fifo (data : List Nat) (res : SysResult)
  /-- the call `sleep_for(milliseconds(ms))` -/
  | sleep_ms (ms : Nat)
  /-- the call `close(fd_uart)` -/
  | close_uart
  /-- the call `close(fd_fifo)` -/
  | close_fifo
  deriving DecidableEq, Repr

/-- How an execution ends. -/
inductive Outcome where
  /-- the function returned this value -/
  | returned (status : Int)
  /-- `std::exit(status)` was called -/
  | exited (status : Int)
  /-- an exception left `main`: `std::terminate` -/
  | terminated
  /-- the environment trace is used up and the capture loop is still running -/
  | running
  deriving DecidableEq, Repr

/-- An execution: its effects in program order and how it ended. -/
structure Run where
  events : List Event
  outcome : Outcome
  deriving DecidableEq, Repr

/-- What the operating system answers in one iteration of the capture loop. -/
structure Poll where
  /-- return value of `read(fd_uart, buffer, buffer_size)` -/
  bytes_read : Int
  /-- contents of `buffer` after the read -/
  buffer : List Nat
  /-- `system_clock::now()` in microseconds since the epoch -/
  micros : Int
  /-- result of the write of the record header -/
  header_written : SysResult
  /-- result of the write of the payload -/
  data_written : SysResult
  deriving DecidableEq, Repr

/-- All answers of the operating system to one run of `run_extcap_capture`. -/
structure Env where
  /-- byte order of the host -/
  endian : Endian
  /-- `strerror` -/
  strerror : Nat → String
  /-- result of opening the FIFO -/
  fifo : SysResult
  /-- result of the write of the pcap global header -/
  global_header : SysResult
  /-- result of opening the UART device -/
  uart : SysResult
  /-- result of `ioctl(TCGETS2)` -/
  get_termios : SysResult
  /-- result of `ioctl(TCSETS2)` -/
  set_termios : SysResult
  /-- the iterations of the capture loop -/
  polls : List Poll

/-- `errno` value `EPIPE` of `<cerrno>` on Linux. -/
def EPIPE : Nat := 32

/-- `errno` value `EBADF` of `<cerrno>` on Linux. -/
def EBADF : Nat := 9

/-- The source's test `errno == EPIPE || errno == EBADF`, which it comments
"FIFO closed by Wireshark". -/
def fifo_closed (errno : Nat) : Bool := errno == EPIPE || errno == EBADF

/-- `LOG_INFO(msg)`: `std::cout << "[INFO] " << msg << std::endl`. -/
def LOG_INFO (msg : String) : Event := .stdout ("[INFO] " ++ msg ++ "\n")

/-- `LOG_ERROR(msg)`: `std::cerr << "[ERROR] " << msg << std::endl`. -/
def LOG_ERROR (msg : String) : Event := .stderr ("[ERROR] " ++ msg ++ "\n")

/-- The bytes a `write` event put into the channel: the first `ret` bytes of the
data when the call did not fail, nothing otherwise. -/
def delivered : Event → List Nat
  | .write_fifo data res => if 0 ≤ res.ret then data.take res.ret.toNat else []
  | _ => []

/-- The byte stream the output channel received during an execution. -/
def channel (evs : List Event) : List Nat := evs.flatMap delivered

/-- The `write` calls of an execution, in order. -/
def writes (evs : List Event) : List (List Nat × SysResult) :=
  evs.filterMap fun e =>
    match e with
    | .write_fifo data res => some (data, res)
    | _ => none

/-- Events that open or touch the FIFO or the UART device. -/
def Event.is_syscall : Event → Bool
  | .stdout _ => false
  | .stderr _ => false
  | .ignore_sigpipe => false
  | _ => true

/-- Text sent to `std::cout` during an execution, in order. -/
def stdout_text (evs : List Event) : List String :=
  evs.filterMap fun e =>
    match e with
    | .stdout s => some s
    | _ => none

/-! ## Serial line -/

/-- `configure_serial_port`: read the settings, set the speed, write them back. -/
def configure_serial_port (env : Env) (baudrate : Int) : List Event × Bool :=
  if env.get_termios.ret < 0 then
    ([.tcgets2, LOG_ERROR ("Failed to get termios2: " ++ env.strerror env.get_termios.errno)], false)
  else if env.set_termios.ret < 0 then
    ([.tcgets2, .tcsets2 baudrate,
      LOG_ERROR ("Failed to set termios2: " ++ env.strerror env.set_termios.errno)], false)
  else
    ([.tcgets2, .tcsets2 baudrate], true)

/-! ## pcap framing -/

/-- `struct PcapGlobalHeader` with its default member initialisers. -/
structure PcapGlobalHeader where
  magic_number : Nat := 0xa1b2c3d4
  version_major : Nat := 2
  version_minor : Nat := 4
  thiszone : Int := 0
  sigfigs : Nat := 0
  snaplen : Nat := 65535
  network : Nat := 147
  deriving DecidableEq, Repr

/-- Memory image of a `PcapGlobalHeader`: the members in declaration order, no padding. -/
def PcapGlobalHeader.bytes (o : Endian) (h : PcapGlobalHeader) : List Nat :=
  encode o 4 h.magic_number ++ encode o 2 h.version_major ++ encode o 2 h.version_minor ++
    encode o 4 (to_uint32 h.thiszone) ++ encode o 4 h.sigfigs ++ encode o 4 h.snaplen ++
    encode o 4 h.network

/-- `write_pcap_global_header`: write the default header; when the write
returns -1, exit with 0 if the FIFO is closed and with 1 otherwise.
The second component is the exit status when the process exits here. -/
def write_pcap_global_header (o : Endian) (strerror : Nat → String) (res : SysResult) :
    List Event × Option Int :=
  let header : PcapGlobalHeader := {}
  let w := Event.write_fifo (header.bytes o) res
  if res.ret = -1 then
    if fifo_closed res.errno then ([w], some 0)
    else ([w, LOG_ERROR ("write() PCAP header failed: " ++ strerror res.errno)], some 1)
  else ([w], none)

/-- `struct pcaprec_hdr_t`: four `uint32_t` members. -/
structure pcaprec_hdr_t where
  ts_sec : Nat
  ts_usec : Nat
  incl_len : Nat
  orig_len : Nat
  deriving DecidableEq, Repr

/-- Memory image of a `pcaprec_hdr_t`. -/
def pcaprec_hdr_t.bytes (o : Endian) (h : pcaprec_hdr_t) : List Nat :=
  encode o 4 h.ts_sec ++ encode o 4 h.ts_usec ++ encode o 4 h.incl_len ++ encode o 4 h.orig_len

/-- The record header the loop builds for a read of `bytes_read` bytes at time `micros`. -/
def pkt_header (micros bytes_read : Int) : pcaprec_hdr_t :=
  { ts_sec := to_uint32 (Int.tdiv micros 1000000)
    ts_usec := to_uint32 (Int.tmod micros 1000000)
    incl_len := to_uint32 bytes_read
    orig_len := to_uint32 bytes_read }

/-! ## The capture function -/

/-- The `while (true)` loop of `run_extcap_capture` over the iterations the
environment supplies.  The result is the effects and whether the loop was left
by a `break`. -/
def capture_loop (o : Endian) (strerror : Nat → String) (buffer_size : Int) :
    List Poll → List Event × Bool
  | [] => ([], false)
  | p :: rest =>
    let r := Event.read_uart buffer_size p.bytes_read
    if 0 < p.bytes_read then
      let hw := Event.write_fifo ((pkt_header p.micros p.bytes_read).bytes o) p.header_written
      if p.header_written.ret = -1 then
        if fifo_closed p.header_written.errno then ([r, hw], true)
        else ([r, hw, LOG_ERROR ("write() header failed: " ++ strerror p.header_written.errno)], true)
      else
        let dw := Event.write_fifo (p.buffer.take p.bytes_read.toNat) p.data_written
        if p.data_written.ret = -1 then
          if fifo_closed p.data_written.errno then ([r, hw, dw], true)
          else
            ([r, hw, dw, LOG_ERROR ("write() data failed: " ++ strerror p.data_written.errno)], true)
        else
          let (evs, broke) := capture_loop o strerror buffer_size rest
          (r :: hw :: dw :: evs, broke)
    else
      let (evs, broke) := capture_loop o strerror buffer_size rest
      (r :: .sleep_ms 1 :: evs, broke)

/-- `run_extcap_capture(fifo_path, device_path, baudrate, buffer_size)`. -/
def run_extcap_capture (env : Env) (fifo_path device_path : String) (baudrate buffer_size : Int) :
    Run :=
  let e0 := [LOG_INFO "Running extcap capture...", Event.open_fifo fifo_path]
  if env.fifo.ret < 0 then
    ⟨e0 ++ [LOG_ERROR ("Could not open FIFO: " ++ fifo_path ++ " - " ++ env.strerror env.fifo.errno)],
      .returned 1⟩
  else
    let e1 := e0 ++ [LOG_INFO ("FIFO opened: " ++ fifo_path)]
    match write_pcap_global_header env.endian env.strerror env.global_header with
    | (wev, some status) => ⟨e1 ++ wev, .exited status⟩
    | (wev, none) =>
      let e2 := e1 ++ wev ++ [Event.open_uart device_path]
      if env.uart.ret < 0 then
        ⟨e2 ++ [LOG_ERROR ("Could not open UART device: " ++ device_path ++ " - " ++
            env.strerror env.uart.errno), .close_fifo], .returned 1⟩
      else
        match configure_serial_port env baudrate with
        | (cev, false) => ⟨e2 ++ cev ++ [.close_uart, .close_fifo], .returned 1⟩
        | (cev, true) =>
          match capture_loop env.endian env.strerror buffer_size env.polls with
          | (lev, true) => ⟨e2 ++ cev ++ lev ++ [.close_uart, .close_fifo], .returned 0⟩
          | (lev, false) => ⟨e2 ++ cev ++ lev, .running⟩

/-! ## Argument handling -/

/-- The local `interface_name` of `main`. -/
def interface_name : String := "fpga_uart"

/-- The loop printing `"  argv[" << i << "] = " << argv[i] << "\n"` from index `i` on. -/
def argv_dump : Nat → List String → List Event
  | _, [] => []
  | i, a :: rest => .stdout ("  argv[" ++ toString i ++ "] = " ++ a ++ "\n") :: argv_dump (i + 1) rest

/-- The start of `main`: the start-up message, the argument dump, `signal(SIGPIPE, SIG_IGN)`. -/
def startup (argv : List String) : List Event :=
  LOG_INFO "FPGA UART Extcap started" :: (argv_dump 0 argv ++ [.ignore_sigpipe])

/-- First pass of `main` over `argv[1..]`: is `--capture` among the arguments. -/
def capture_requested : List String → Bool
  | [] => false
  | a :: rest => if a = "--capture" then true else capture_requested rest

/-- Output of the `--extcap-interfaces` branch. -/
def interfaces_decl : List Event :=
  [.stdout "extcap \x7bversion=1.0\x7d\x7bhelp=https://example.com/help\x7d\n",
   .stdout ("interface \x7bvalue=" ++ interface_name ++ "\x7d\x7bdisplay=FPGA UART Interface\x7d\n")]

/-- Output of the `--extcap-interface fpga_uart` branch. -/
def dlt_decl : List Event :=
  [.stdout "dlt \x7bnumber=147\x7d\x7bname=USER0\x7d\x7bdisplay=User DLT 0\x7d\n"]

/-- One `value` line of the device selector. -/
def value_decl (dev : String) : Event :=
  .stdout ("value \x7barg=0\x7d\x7bvalue=" ++ dev ++ "\x7d\x7bdisplay=" ++ dev ++ "\x7d\n")

/-- Output of the `--extcap-config` branch for the devices `list_uart_devices()` returned. -/
def config_decl (devices : List String) : List Event :=
  [.stdout ("arg \x7bnumber=0\x7d\x7bcall=--serial-device\x7d\x7bdisplay=Serial Device\x7d" ++
      "\x7btooltip=Select the UART device\x7d\x7btype=selector\x7d\x7brequired=true\x7d\x7bgroup=UART\x7d\n")] ++
  devices.map value_decl ++
  [.stdout ("arg \x7bnumber=1\x7d\x7bcall=--baudrate\x7d\x7bdisplay=Baud Rate\x7d" ++
      "\x7btooltip=Set the UART baud rate (e.g. 12000000)\x7d" ++
      "\x7btype=string\x7d\x7bdefault=12000000\x7d\x7bgroup=UART\x7d\n"),
   .stdout ("arg \x7bnumber=2\x7d\x7bcall=--buffer-size\x7d\x7bdisplay=Buffer Size\x7d" ++
      "\x7btooltip=Set the buffer size (e.g. 6)\x7d" ++
      "\x7btype=string\x7d\x7bdefault=6\x7d\x7bgroup=UART\x7d\n")]

/-- Output of the `--extcap-version` branch. -/
def version_decl : List Event := [.stdout "extcap_uart version 1.0\n"]

/-- The discovery loop of `main` over `argv[i..]`.  `some out` when a branch
printed `out` and returned 0, `none` when the loop ran to its end.  `devices` is
what `list_uart_devices()` returns. -/
def discovery (devices : List String) : List String → Option (List Event)
  | [] => none
  | arg :: rest =>
    if arg = "--extcap-interfaces" then some interfaces_decl
    else if arg = "--extcap-interface" ∧ rest ≠ [] then
      match rest with
      | [] => none
      | iface :: rest2 => if iface = interface_name then some dlt_decl else discovery devices rest2
    else if arg = "--extcap-config" then some (config_decl devices)
    else if arg = "--extcap-version" then some version_decl
    else discovery devices rest

/-- `isspace` of the C locale. -/
def isspace (c : Char) : Bool := c.toNat = 32 || (9 ≤ c.toNat && c.toNat ≤ 13)

/-- `std::stoi(s)`: skip white space, read an optional sign and the decimal
digits that follow.  `none` stands for the exception thrown when there is no
digit (`std::invalid_argument`) or the value does not fit an `int`
(`std::out_of_range`). -/
def stoi (s : String) : Option Int :=
  let cs := s.data.dropWhile isspace
  let signed : Bool × List Char :=
    match cs with
    | '-' :: r => (true, r)
    | '+' :: r => (false, r)
    | r => (false, r)
  let digits := signed.2.takeWhile Char.isDigit
  if digits = [] then none
  else
    let v : Nat := digits.foldl (fun acc c => 10 * acc + (c.toNat - 48)) 0
    let r : Int := if signed.1 then -(v : Int) else (v : Int)
    if r < -2147483648 ∨ 2147483647 < r then none else some r

/-- The locals the second pass of `main` fills. -/
structure Options where
  fifo_path : String := ""
  selected_device : String := ""
  baudrate : Int := 12000000
  buffer_size : Int := 6
  deriving DecidableEq, Repr

/-- Second pass of `main` over `argv[i..]`.  `none` when `std::stoi` throws. -/
def parse_args : List String → Options → Option Options
  | [], opts => some opts
  | arg :: rest, opts =>
    if arg = "--fifo" ∧ rest ≠ [] then
      match rest with
      | [] => some opts
      | v :: rest2 => parse_args rest2 { opts with fifo_path := v }
    else if arg = "--serial-device" ∧ rest ≠ [] then
      match rest with
      | [] => some opts
      | v :: rest2 => parse_args rest2 { opts with selected_device := v }
    else if arg = "--baudrate" ∧ rest ≠ [] then
      match rest with
      | [] => some opts
      | v :: rest2 =>
        match stoi v with
        | none => none
        | some n => parse_args rest2 { opts with baudrate := n }
    else if arg = "--buffer-size" ∧ rest ≠ [] then
      match rest with
      | [] => some opts
      | v :: rest2 =>
        match stoi v with
        | none => none
        | some n => parse_args rest2 { opts with buffer_size := n }
    else parse_args rest opts

/-- How `main` ends once the arguments are handled. -/
inductive Action where
  /-- `return status` -/
  | ret (status : Int)
  /-- an exception of `std::stoi` leaves `main` -/
  | throw
  /-- `return run_extcap_capture(fifo_path, selected_device, baudrate, buffer_size)` -/
  | capture (fifo_path selected_device : String) (baudrate buffer_size : Int)
  deriving DecidableEq, Repr

/-- The `LOG_INFO` lines of the `if (capture_mode)` block. -/
def capture_log (opts : Options) : List Event :=
  [LOG_INFO "Capture mode activated",
   LOG_INFO ("Interface: " ++ interface_name),
   LOG_INFO ("FIFO: " ++ opts.fifo_path),
   LOG_INFO ("UART: " ++ opts.selected_device),
   LOG_INFO ("Baudrate: " ++ toString opts.baudrate),
   LOG_INFO ("Buffer size: " ++ toString opts.buffer_size)]

/-- The part of `main` after the discovery block: the second pass and the
`if (capture_mode)` block. -/
def after_discovery (capture_mode : Bool) (args : List String) : List Event × Action :=
  match parse_args args {} with
  | none => ([], .throw)
  | some opts =>
    if capture_mode then
      if opts.fifo_path ≠ "" ∧ opts.selected_device ≠ "" then
        (capture_log opts,
          .capture opts.fifo_path opts.selected_device opts.baudrate opts.buffer_size)
      else
        (capture_log opts ++ [LOG_ERROR "FIFO path or UART device not specified."], .ret 1)
    else ([], .ret 0)

/-- The body of `main` up to the point where it returns, throws or calls
`run_extcap_capture`.  `argv` is the whole argument vector, `argv[0]` included. -/
def main_args (argv devices : List String) : List Event × Action :=
  let capture_mode := capture_requested argv.tail
  match (if capture_mode then none else discovery devices argv.tail) with
  | some out => (startup argv ++ out, .ret 0)
  | none =>
    let r := after_discovery capture_mode argv.tail
    (startup argv ++ r.1, r.2)

/-- The whole of `main(argc, argv)`. -/
def main (argv devices : List String) (env : Env) : Run :=
  match main_args argv devices with
  | (evs, .ret status) => ⟨evs, .returned status⟩
  | (evs, .throw) => ⟨evs, .terminated⟩
  | (evs, .capture fifo_path device baudrate buffer_size) =>
    let r := run_extcap_capture env fifo_path device baudrate buffer_size
    ⟨evs ++ r.events, r.outcome⟩

/-- Negotiation-protocol declaration text: an `extcap`, `interface`, `dlt`,
`arg` or `value` sentence or the version line. -/
def is_declaration (text : String) : Bool :=
  "extcap ".data.isPrefixOf text.data || "interface ".data.isPrefixOf text.data ||
  "dlt ".data.isPrefixOf text.data || "arg ".data.isPrefixOf text.data ||
  "value ".data.isPrefixOf text.data || "extcap_uart version".data.isPrefixOf text.data

/-- A sample environment: everything opens, every write is complete, and the
device delivers `polls`. -/
def sample_env (polls : List Poll) : Env :=
  { endian := .little
    strerror := fun e => "errno " ++ toString e
    fifo := ⟨3, 0⟩
    global_header := ⟨24, 0⟩
    uart := ⟨4, 0⟩
    get_termios := ⟨0, 0⟩
    set_termios := ⟨0, 0⟩
    polls := polls }

/-! ## Auxiliary definitions for the statements -/

/-- The bytes one successful iteration of the capture loop sends: the record
header of the chunk, then the first `bytes_read` bytes of the buffer. -/
def record_bytes (o : Endian) (p : Poll) : List Nat :=
  (pkt_header p.micros p.bytes_read).bytes o ++ p.buffer.take p.bytes_read.toNat

/-- A loop iteration whose read delivers data and whose two writes are complete. -/
def Poll.complete (p : Poll) : Prop :=
  0 < p.bytes_read ∧ p.header_written.ret = 16 ∧ p.data_written.ret = p.bytes_read

/-- The FIFO and the device open, the global header write does not fail and the
line settings are applied: the run reaches the capture loop. -/
def Env.reaches_loop (env : Env) : Prop :=
  0 ≤ env.fifo.ret ∧ env.global_header.ret ≠ -1 ∧ 0 ≤ env.uart.ret ∧
    0 ≤ env.get_termios.ret ∧ 0 ≤ env.set_termios.ret

instance (env : Env) : Decidable env.reaches_loop := by
  unfold Env.reaches_loop
  infer_instance

/-- The effects of `run_extcap_capture` before its loop when everything opens. -/
def setup_events (env : Env) (fifo_path device_path : String) (baudrate : Int) : List Event :=
  [LOG_INFO "Running extcap capture...", .open_fifo fifo_path,
   LOG_INFO ("FIFO opened: " ++ fifo_path),
   .write_fifo (PcapGlobalHeader.bytes env.endian {}) env.global_header,
   .open_uart device_path, .tcgets2, .tcsets2 baudrate]

/-- An event that puts no declaration text on `std::cout`. -/
def Event.no_declaration : Event → Bool
  | .stdout text => !is_declaration text
  | _ => true

/-- The declaration texts an execution sent to `std::cout`, in order. -/
def declarations (evs : List Event) : List String := (stdout_text evs).filter is_declaration

/-- The four arguments the discovery loop reacts to. -/
def is_discovery_flag (a : String) : Bool :=
  a = "--extcap-interfaces" || a = "--extcap-interface" || a = "--extcap-config" ||
    a = "--extcap-version"

/-! ## The idle-timeout variant: `src/extcap_cpp/src/main.cpp` -/

namespace extcap_cpp

/-- What the operating system answers in one iteration of the idle-timeout loop. -/
structure Poll where
  /-- return value of `read(fd_uart, buffer, BUFFER_SIZE)` -/
  bytes_read : Int
  /-- contents of `buffer` after the read -/
  buffer : List Nat
  /-- `steady_clock::now()` after the read, in ticks of the clock -/
  now : Int
  /-- result of `write(fd_fifo, buffer, bytes_read)`, which the source does not inspect -/
  written : SysResult
  deriving DecidableEq, Repr

/-- All answers of the operating system to one run of this `run_extcap_capture`. -/
structure Env where
  /-- `strerror` -/
  strerror : Nat → String
  /-- the paths `fs::directory_iterator("/dev")` yields, in its order -/
  dev_entries : List String
  /-- result of opening the UART device -/
  uart : SysResult
  /-- result of `ioctl(TCGETS2)` -/
  get_termios : SysResult
  /-- result of `ioctl(TCSETS2)` -/
  set_termios : SysResult
  /-- result of opening the FIFO -/
  fifo : SysResult
  /-- ticks of `steady_clock` in one millisecond (1000000 for a nanosecond clock) -/
  ticks_per_ms : Int
  /-- `steady_clock::now()` right before the loop, in ticks -/
  start : Int
  /-- the iterations of the loop -/
  polls : List Poll

/-- How a run of this variant ends.  This file never changes the disposition
of `SIGPIPE`, so a write to a FIFO whose reader has closed ends the process. -/
inductive Outcome where
  /-- the function returned this value -/
  | returned (status : Int)
  /-- the process was ended by `SIGPIPE`, raised in a `write` to the FIFO -/
  | killed_by_sigpipe
  /-- the environment trace is used up and the capture loop is still running -/
  | running
  deriving DecidableEq, Repr

/-- An execution of this variant: its effects in program order and how it ended. -/
structure Run where
  events : List Event
  outcome : Outcome
  deriving DecidableEq, Repr

/-- How one iteration of the loop ends. -/
inductive Step where
  /-- the loop goes on, with this `last_read_time` -/
  | go (last_read_time : Int)
  /-- the loop is left by `break` -/
  | stop
  /-- the process is ended by `SIGPIPE` during the `write` -/
  | kill
  deriving DecidableEq, Repr

/-- `const int IDLE_TIMEOUT_MS = 300`. -/
def IDLE_TIMEOUT_MS : Int := 300

/-- `const size_t BUFFER_SIZE = 512`. -/
def BUFFER_SIZE : Int := 512

/-- `s.find("ttyUSB") != std::string::npos` on the characters of `s`. -/
def has_ttyUSB : List Char → Bool
  | [] => false
  | c :: cs => "ttyUSB".data.isPrefixOf (c :: cs) || has_ttyUSB cs

/-- The directory scan: the first entry whose path contains `ttyUSB`. -/
def scan_dev : List String → Option String
  | [] => none
  | e :: rest => if has_ttyUSB e.data then some e else scan_dev rest

/-- `configure_serial_port` of this file: errors go to `std::cerr` unprefixed. -/
def configure_serial_port (env : Env) (baudrate : Int) : List Event × Bool :=
  if env.get_termios.ret < 0 then
    ([.tcgets2, .stderr ("Failed to get termios2: " ++ env.strerror env.get_termios.errno ++ "\n")],
      false)
  else if env.set_termios.ret < 0 then
    ([.tcgets2, .tcsets2 baudrate,
      .stderr ("Failed to set termios2: " ++ env.strerror env.set_termios.errno ++ "\n")], false)
  else
    ([.tcgets2, .tcsets2 baudrate], true)

/-- One iteration of the loop with `last_read_time` as it stands: the effects
and how the iteration ends.  The result of the `write` is not inspected by the
source; a `write` that the operating system answers with -1 and `EPIPE` (the
reader has closed) raises `SIGPIPE`, which has its default disposition here and
ends the process.  `k` is the number of clock ticks in a millisecond, so that
`duration_cast<milliseconds>(now - last_read_time).count()` is the truncated
quotient by `k`. -/
def iteration (k : Int) (last_read_time : Int) (p : Poll) : List Event × Step :=
  let r := Event.read_uart BUFFER_SIZE p.bytes_read
  if 0 < p.bytes_read then
    let w := Event.write_fifo (p.buffer.take p.bytes_read.toNat) p.written
    if p.written.ret = -1 ∧ p.written.errno = EPIPE then ([r, w], .kill)
    else ([r, w], .go p.now)
  else
    let elapsed := Int.tdiv (p.now - last_read_time) k
    if elapsed > IDLE_TIMEOUT_MS then ([r], .stop)
    else ([r, .sleep_ms 1], .go last_read_time)

/-- The `while (true)` loop over the iterations the environment supplies. -/
def capture_loop (k : Int) : Int → List Poll → List Event × Step
  | last_read_time, [] => ([], .go last_read_time)
  | last_read_time, p :: rest =>
    match iteration k last_read_time p with
    | (evs, .go t) =>
      let r := capture_loop k t rest
      (evs ++ r.1, r.2)
    | (evs, .stop) => (evs, .stop)
    | (evs, .kill) => (evs, .kill)

/-- `run_extcap_capture(fifo_path)` of `src/extcap_cpp/src/main.cpp`.  The
device is opened first, here with `O_NONBLOCK` added to the flags, and no pcap
header is written. -/
def run_extcap_capture (env : Env) (fifo_path : String) : Run :=
  let found := scan_dev env.dev_entries
  let device_path := found.getD ""
  let e0 : List Event :=
    match found with
    | some p => [.stdout ("Found device: " ++ p ++ "\n")]
    | none => []
  if device_path = "" then
    ⟨e0 ++ [.stderr "No ttyUSB devices found.\n"], .returned 1⟩
  else
    let e1 := e0 ++ [Event.open_uart device_path]
    if env.uart.ret < 0 then
      ⟨e1 ++ [.stderr ("Failed to open UART: " ++ env.strerror env.uart.errno ++ "\n")],
        .returned 1⟩
    else
      match configure_serial_port env 12000000 with
      | (cev, false) => ⟨e1 ++ cev ++ [.close_uart], .returned 1⟩
      | (cev, true) =>
        let e2 := e1 ++ cev ++
          [.stdout ("UART configured, opening FIFO: " ++ fifo_path ++ "\n"), .open_fifo fifo_path]
        if env.fifo.ret < 0 then
          ⟨e2 ++ [.stderr ("Failed to open FIFO: " ++ env.strerror env.fifo.errno ++ "\n"),
            .close_uart], .returned 1⟩
        else
          match capture_loop env.ticks_per_ms env.start env.polls with
          | (lev, .stop) => ⟨e2 ++ lev ++ [.close_uart, .close_fifo], .returned 0⟩
          | (lev, .kill) => ⟨e2 ++ lev, .killed_by_sigpipe⟩
          | (lev, .go _) => ⟨e2 ++ lev, .running⟩

/-- A sample environment on a nanosecond clock: `/dev/ttyUSB0` is found,
everything opens, the loop starts at tick 0 and sees `polls`. -/
def sample_env (polls : List Poll) : Env :=
  { strerror := fun e => "errno " ++ toString e
    dev_entries := ["/dev/null", "/dev/ttyUSB0"]
    uart := ⟨4, 0⟩
    get_termios := ⟨0, 0⟩
    set_termios := ⟨0, 0⟩
    fifo := ⟨5, 0⟩
    ticks_per_ms := 1000000
    start := 0
    polls := polls }

/-- The time of the last read that delivered data among the polls `pre`, or
`start` when there is none. -/
def last_success (start : Int) (pre : List Poll) : Int :=
  match pre.reverse.find? (fun p => decide (0 < p.bytes_read)) with
  | some p => p.now
  | none => start

/-- The poll `p`, coming after the polls `pre`, reads nothing and at least
`IDLE_TIMEOUT_MS + 1` whole milliseconds (of `k` ticks each) have passed since
the last successful read, or since `start`. -/
def timed_out (k start : Int) (pre : List Poll) (p : Poll) : Prop :=
  p.bytes_read ≤ 0 ∧ (IDLE_TIMEOUT_MS + 1) * k ≤ p.now - last_success start pre

instance (k start : Int) (pre : List Poll) (p : Poll) : Decidable (timed_out k start pre p) := by
  unfold timed_out
  infer_instance

/-- The device is found and opened, the line settings are applied and the
FIFO opens: the run reaches the loop. -/
def Env.reaches_loop (env : Env) : Prop :=
  (scan_dev env.dev_entries).getD "" ≠ "" ∧ 0 ≤ env.uart.ret ∧
    0 ≤ env.get_termios.ret ∧ 0 ≤ env.set_termios.ret ∧ 0 ≤ env.fifo.ret

instance (env : Env) : Decidable env.reaches_loop := by
  unfold Env.reaches_loop
  infer_instance

/-- The effects of this `run_extcap_capture` before its loop when everything opens. -/
def setup_events (env : Env) (fifo_path : String) : List Event :=
  [.stdout ("Found device: " ++ (scan_dev env.dev_entries).getD "" ++ "\n"),
   .open_uart ((scan_dev env.dev_entries).getD ""), .tcgets2, .tcsets2 12000000,
   .stdout ("UART configured, opening FIFO: " ++ fifo_path ++ "\n"), .open_fifo fifo_path]

/-- None of the writes of the polls raises `SIGPIPE`: no poll that reads data
has its `write` answered with -1 and `EPIPE`. -/
def no_sigpipe (polls : List Poll) : Prop :=
  ∀ p ∈ polls, 0 < p.bytes_read → ¬ (p.written.ret = -1 ∧ p.written.errno = EPIPE)

instance (polls : List Poll) : Decidable (no_sigpipe polls) := by
  unfold no_sigpipe
  infer_instance

/-- None of the polls has timed out, each taken after the polls in front of it. -/
def no_timeout (k start : Int) (polls : List Poll) : Prop :=
  ∀ i : Fin polls.length, ¬ timed_out k start (polls.take i) (polls.get i)

instance (k start : Int) (polls : List Poll) : Decidable (no_timeout k start polls) := by
  unfold no_timeout
  infer_instance

end extcap_cpp

/-! # Theorems -/

/-! ## Lemmas on the byte encoding -/

/-- An integer of `w` bytes occupies `w` bytes. -/
theorem length_le_bytes (w v : Nat) : (le_bytes w v).length = w := by
  induction w generalizing v with
  | zero => rfl
  | succ n ih => simp [le_bytes, ih]

/-- The memory image of a `w`-byte integer has `w` bytes, in either byte order. -/
theorem length_encode (o : Endian) (w v : Nat) : (encode o w v).length = w := by
  cases o <;> simp [encode, length_le_bytes]

/-- Reading back the `w` low-order bytes of `v` gives `v` modulo `256 ^ w`. -/
theorem le_value_le_bytes (w v : Nat) : le_value (le_bytes w v) = v % 256 ^ w := by
  induction w generalizing v with
  | zero => simp [le_bytes, le_value, Nat.mod_one]
  | succ n ih =>
    simp only [le_bytes, le_value, ih]
    rw [pow_succ, Nat.mul_comm (256 ^ n) 256, Nat.mod_mul]

/-- Reading a memory image back in the byte order it was written in. -/
theorem decode_encode (o : Endian) (w v : Nat) : decode o (encode o w v) = v % 256 ^ w := by
  cases o <;> simp [decode, encode, le_value_le_bytes]

/-- Conversion to `uint32_t` keeps a value that fits. -/
theorem to_uint32_of_range (n : Int) (h0 : 0 ≤ n) (h1 : n < 2 ^ 32) : (to_uint32 n : Int) = n := by
  unfold to_uint32
  rw [Int.emod_eq_of_lt h0 h1]
  exact Int.toNat_of_nonneg h0

/-- A `uint32_t` is below `2 ^ 32`. -/
theorem to_uint32_lt (n : Int) : to_uint32 n < 2 ^ 32 := by
  unfold to_uint32
  have h : n % 2 ^ 32 < 2 ^ 32 := Int.emod_lt_of_pos n (by norm_num)
  have h0 : 0 ≤ n % 2 ^ 32 := Int.emod_nonneg n (by norm_num)
  omega

/-- The slice at offset 0 that covers the first part of a concatenation. -/
theorem slice_zero (a b : List Nat) (n : Nat) (h : a.length = n) : slice (a ++ b) 0 n = a := by
  subst h
  simp [slice]

/-- A slice that starts behind the first part of a concatenation. -/
theorem slice_skip (a b : List Nat) (k off n : Nat) (h : a.length = k) :
    slice (a ++ b) (k + off) n = slice b off n := by
  subst h
  simp [slice, List.drop_append]

/-- The channel stream of consecutive effects is the concatenation of their streams. -/
theorem channel_append (a b : List Event) : channel (a ++ b) = channel a ++ channel b := by
  simp [channel]

/-- The channel stream of an effect followed by others. -/
theorem channel_cons (e : Event) (evs : List Event) : channel (e :: evs) = delivered e ++ channel evs := by
  simp [channel]

/-- The value of `sizeof(pcaprec_hdr_t)` is 16. -/
theorem length_pcaprec_bytes (o : Endian) (h : pcaprec_hdr_t) : (h.bytes o).length = 16 := by
  simp [pcaprec_hdr_t.bytes, length_encode]

/-- Fields of a record header read back from its memory image. -/
theorem pcaprec_fields (o : Endian) (h : pcaprec_hdr_t) :
    decode o (slice (h.bytes o) 0 4) = h.ts_sec % 2 ^ 32 ∧
    decode o (slice (h.bytes o) 4 4) = h.ts_usec % 2 ^ 32 ∧
    decode o (slice (h.bytes o) 8 4) = h.incl_len % 2 ^ 32 ∧
    decode o (slice (h.bytes o) 12 4) = h.orig_len % 2 ^ 32 := by
  have e1 := length_encode o 4 h.ts_sec
  have e2 := length_encode o 4 h.ts_usec
  have e3 := length_encode o 4 h.incl_len
  have e4 := length_encode o 4 h.orig_len
  have p : (256 : Nat) ^ 4 = 2 ^ 32 := by norm_num
  have s4 : slice (encode o 4 h.orig_len) 0 4 = encode o 4 h.orig_len := by
    simpa using slice_zero (encode o 4 h.orig_len) [] 4 e4
  unfold pcaprec_hdr_t.bytes
  simp only [List.append_assoc]
  refine ⟨?_, ?_, ?_, ?_⟩
  · rw [slice_zero _ _ 4 e1, decode_encode, p]
  · rw [slice_skip _ _ 4 0 4 e1, slice_zero _ _ 4 e2, decode_encode, p]
  · rw [slice_skip _ _ 4 4 4 e1, slice_skip _ _ 4 0 4 e2, slice_zero _ _ 4 e3, decode_encode, p]
  · rw [slice_skip _ _ 4 8 4 e1, slice_skip _ _ 4 4 4 e2, slice_skip _ _ 4 0 4 e3, s4,
      decode_encode, p]

/-- A write that returns the length of its data delivers all of it. -/
theorem delivered_full (data : List Nat) (res : SysResult) (h : res.ret = data.length) :
    delivered (.write_fifo data res) = data := by
  simp [delivered, h]

/-- While every iteration is complete, the loop sends one record per iteration
and is never left. -/
theorem capture_loop_complete (o : Endian) (s : Nat → String) (bs : Int) (polls : List Poll)
    (h : ∀ p ∈ polls, p.complete ∧ p.bytes_read ≤ p.buffer.length) :
    channel (capture_loop o s bs polls).1 = polls.flatMap (record_bytes o) ∧
      (capture_loop o s bs polls).2 = false := by
  induction polls with
  | nil => simp [capture_loop, channel]
  | cons p rest ih =>
    obtain ⟨⟨hpos, hhw, hdw⟩, hlen⟩ := h p (List.mem_cons_self _ _)
    have ih2 := ih (fun q hq => h q (List.mem_cons_of_mem _ hq))
    have h1 : ¬ p.header_written.ret = -1 := by omega
    have h2 : ¬ p.data_written.ret = -1 := by omega
    have d1 : delivered (.write_fifo ((pkt_header p.micros p.bytes_read).bytes o) p.header_written) =
        (pkt_header p.micros p.bytes_read).bytes o :=
      delivered_full _ _ (by rw [length_pcaprec_bytes, hhw]; rfl)
    have d2 : delivered (.write_fifo (p.buffer.take p.bytes_read.toNat) p.data_written) =
        p.buffer.take p.bytes_read.toNat := by
      apply delivered_full
      rw [List.length_take, hdw]
      omega
    simp only [capture_loop, hpos, if_true, h1, h2, if_false]
    refine ⟨?_, ih2.2⟩
    rw [channel_cons, channel_cons, channel_cons, d1, d2, ih2.1]
    simp [delivered, record_bytes]

/-- A run that reaches the loop is its set-up followed by the loop; it returns
0 after closing both handles when the loop is left. -/
theorem run_extcap_capture_loop (env : Env) (f d : String) (baud bs : Int)
    (h : env.reaches_loop) :
    run_extcap_capture env f d baud bs =
      if (capture_loop env.endian env.strerror bs env.polls).2 then
        ⟨setup_events env f d baud ++ (capture_loop env.endian env.strerror bs env.polls).1 ++
          [.close_uart, .close_fifo], .returned 0⟩
      else
        ⟨setup_events env f d baud ++ (capture_loop env.endian env.strerror bs env.polls).1,
          .running⟩ := by
  obtain ⟨h1, h2, h3, h4, h5⟩ := h
  have n1 : ¬ env.fifo.ret < 0 := by omega
  have n3 : ¬ env.uart.ret < 0 := by omega
  have n4 : ¬ env.get_termios.ret < 0 := by omega
  have n5 : ¬ env.set_termios.ret < 0 := by omega
  unfold run_extcap_capture write_pcap_global_header configure_serial_port
  simp only [n1, h2, n3, n4, n5, if_false]
  cases hl : capture_loop env.endian env.strerror bs env.polls with
  | mk lev broke =>
    cases broke <;> simp [setup_events]

/-- Before the loop the channel has received the global header, when its write is complete. -/
theorem channel_setup_events (env : Env) (f d : String) (baud : Int)
    (h : env.global_header.ret = 24) :
    channel (setup_events env f d baud) = PcapGlobalHeader.bytes env.endian {} := by
  have hl : (PcapGlobalHeader.bytes env.endian {}).length = 24 := by
    simp [PcapGlobalHeader.bytes, length_encode]
  simp [setup_events, channel, delivered, LOG_INFO, h, ← hl]

/-- The loop over `pre ++ post` when it is not left during `pre`. -/
theorem capture_loop_append (o : Endian) (s : Nat → String) (bs : Int) (pre post : List Poll)
    (h : (capture_loop o s bs pre).2 = false) :
    capture_loop o s bs (pre ++ post) =
      ((capture_loop o s bs pre).1 ++ (capture_loop o s bs post).1,
        (capture_loop o s bs post).2) := by
  induction pre with
  | nil => simp [capture_loop]
  | cons p rest ih =>
    rw [List.cons_append]
    simp only [capture_loop] at h ⊢
    by_cases h0 : 0 < p.bytes_read
    · simp only [h0, if_true] at h ⊢
      by_cases h1 : p.header_written.ret = -1
      · simp only [h1, if_true] at h
        split at h <;> simp at h
      · simp only [h1, if_false] at h ⊢
        by_cases h2 : p.data_written.ret = -1
        · simp only [h2, if_true] at h
          split at h <;> simp at h
        · simp only [h2, if_false] at h ⊢
          rw [ih h]
          simp
    · simp only [h0, if_false] at h ⊢
      rw [ih h]
      simp

/-- C1: when the FIFO and the device open, the global header write is complete
and every iteration of the loop reads `bytes_read > 0` bytes (at most
`buffer_size`, into a buffer of `buffer_size` bytes) and completes both writes,
the channel receives exactly the session header followed, per iteration, by the
16-byte record header and the `bytes_read` payload bytes; the `incl_len` and
`orig_len` fields of each record header both read back as `bytes_read`. -/
theorem capture_stream_is_header_then_records (env : Env) (fifo_path device_path : String)
    (baudrate buffer_size : Int)
    (hopen : 0 ≤ env.fifo.ret ∧ 0 ≤ env.uart.ret ∧ 0 ≤ env.get_termios.ret ∧
      0 ≤ env.set_termios.ret)
    (hhdr : env.global_header.ret = 24)
    (hsize : buffer_size < 2 ^ 31)
    (hpolls : ∀ p ∈ env.polls, 0 < p.bytes_read ∧ p.bytes_read ≤ buffer_size ∧
      (p.buffer.length : Int) = buffer_size ∧ p.header_written.ret = 16 ∧
      p.data_written.ret = p.bytes_read) :
    channel (run_extcap_capture env fifo_path device_path baudrate buffer_size).events =
        PcapGlobalHeader.bytes env.endian {} ++
          env.polls.flatMap (fun p =>
            (pkt_header p.micros p.bytes_read).bytes env.endian ++
              p.buffer.take p.bytes_read.toNat) ∧
      ∀ p ∈ env.polls,
        ((pkt_header p.micros p.bytes_read).bytes env.endian).length = 16 ∧
        (decode env.endian (slice ((pkt_header p.micros p.bytes_read).bytes env.endian) 8 4) : Int)
          = p.bytes_read ∧
        (decode env.endian (slice ((pkt_header p.micros p.bytes_read).bytes env.endian) 12 4) : Int)
          = p.bytes_read ∧
        ((p.buffer.take p.bytes_read.toNat).length : Int) = p.bytes_read := by
  obtain ⟨h1, h3, h4, h5⟩ := hopen
  have hreach : env.reaches_loop := ⟨h1, by omega, h3, h4, h5⟩
  have hc := capture_loop_complete env.endian env.strerror buffer_size env.polls
    (fun p hp => by
      obtain ⟨a, b, c, d, e⟩ := hpolls p hp
      exact ⟨⟨a, d, e⟩, by omega⟩)
  constructor
  · rw [run_extcap_capture_loop env _ _ _ _ hreach, hc.2]
    simp only [Bool.false_eq_true, if_false]
    rw [channel_append, channel_setup_events env _ _ _ hhdr, hc.1]
    rfl
  · intro p hp
    obtain ⟨a, b, c, d, e⟩ := hpolls p hp
    have hf := pcaprec_fields env.endian (pkt_header p.micros p.bytes_read)
    have hu : (to_uint32 p.bytes_read : Int) = p.bytes_read :=
      to_uint32_of_range _ (by omega) (by omega)
    have hlt := to_uint32_lt p.bytes_read
    refine ⟨length_pcaprec_bytes _ _, ?_, ?_, ?_⟩
    · rw [hf.2.2.1]
      simp only [pkt_header]
      rw [Nat.mod_eq_of_lt hlt, hu]
    · rw [hf.2.2.2]
      simp only [pkt_header]
      rw [Nat.mod_eq_of_lt hlt, hu]
    · rw [List.length_take]
      omega

/-- Two reads of three and two bytes, all writes complete, on a little-endian host. -/
theorem capture_stream_is_header_then_records_witness :
    channel (run_extcap_capture
        (sample_env [⟨3, [1, 2, 3, 4, 5, 6], 1700000000123456, ⟨16, 0⟩, ⟨3, 0⟩⟩,
          ⟨2, [9, 8, 3, 4, 5, 6], 1700000001000001, ⟨16, 0⟩, ⟨2, 0⟩⟩])
        "/tmp/f" "/dev/ttyUSB0" 12000000 6).events =
      [212, 195, 178, 161, 2, 0, 4, 0, 0, 0, 0, 0, 0, 0, 0, 0, 255, 255, 0, 0, 147, 0, 0, 0,
       0, 241, 83, 101, 64, 226, 1, 0, 3, 0, 0, 0, 3, 0, 0, 0, 1, 2, 3,
       1, 241, 83, 101, 1, 0, 0, 0, 2, 0, 0, 0, 2, 0, 0, 0, 9, 8] :=
  (capture_stream_is_header_then_records
    (sample_env [⟨3, [1, 2, 3, 4, 5, 6], 1700000000123456, ⟨16, 0⟩, ⟨3, 0⟩⟩,
      ⟨2, [9, 8, 3, 4, 5, 6], 1700000001000001, ⟨16, 0⟩, ⟨2, 0⟩⟩])
    "/tmp/f" "/dev/ttyUSB0" 12000000 6
    (by decide) (by decide) (by decide) (by decide)).1.trans (by decide)

/-- C2: `write_pcap_global_header` passes the same 24 bytes to `write` whatever
its inputs (byte order of the host apart); read in the host byte order with the
widths 4|2|2|4|4|4|4 they are magic 0xa1b2c3d4, version 2.4, timezone 0,
sigfigs 0, snaplen 65535 and linktype 147. -/
theorem session_header_is_constant (o : Endian) (s1 s2 : Nat → String) (r1 r2 : SysResult) :
    (writes (write_pcap_global_header o s1 r1).1).map Prod.fst = [PcapGlobalHeader.bytes o {}] ∧
    (writes (write_pcap_global_header o s1 r1).1).map Prod.fst =
      (writes (write_pcap_global_header o s2 r2).1).map Prod.fst ∧
    (PcapGlobalHeader.bytes o {}).length = 24 ∧
    decode o (slice (PcapGlobalHeader.bytes o {}) 0 4) = 0xa1b2c3d4 ∧
    decode o (slice (PcapGlobalHeader.bytes o {}) 4 2) = 2 ∧
    decode o (slice (PcapGlobalHeader.bytes o {}) 6 2) = 4 ∧
    decode o (slice (PcapGlobalHeader.bytes o {}) 8 4) = 0 ∧
    decode o (slice (PcapGlobalHeader.bytes o {}) 12 4) = 0 ∧
    decode o (slice (PcapGlobalHeader.bytes o {}) 16 4) = 65535 ∧
    decode o (slice (PcapGlobalHeader.bytes o {}) 20 4) = 147 ∧
    PcapGlobalHeader.bytes .little {} =
      [0xd4, 0xc3, 0xb2, 0xa1, 2, 0, 4, 0, 0, 0, 0, 0, 0, 0, 0, 0, 0xff, 0xff, 0, 0, 147, 0, 0, 0] ∧
    PcapGlobalHeader.bytes .big {} =
      [0xa1, 0xb2, 0xc3, 0xd4, 0, 2, 0, 4, 0, 0, 0, 0, 0, 0, 0, 0, 0, 0, 0xff, 0xff, 0, 0, 0, 147] := by
  have hw : ∀ (s : Nat → String) (r : SysResult),
      (writes (write_pcap_global_header o s r).1).map Prod.fst = [PcapGlobalHeader.bytes o {}] := by
    intro s r
    unfold write_pcap_global_header
    by_cases h : r.ret = -1
    · by_cases hc : fifo_closed r.errno = true <;> simp [h, hc, writes, LOG_ERROR]
    · simp [h, writes]
  refine ⟨hw s1 r1, (hw s1 r1).trans (hw s2 r2).symm, ?_⟩
  cases o <;> decide

/-- C5: in a run that reached the loop and is still in it after the iterations
`pre`, if the next iteration reads data and its record-header write, or (the
header write not failing) its payload write, returns -1 with the FIFO closed
(`errno` `EPIPE` or `EBADF`), then that write is the last call on the channel
apart from `close` (after a failed header write no payload write is made),
nothing of the later iterations `rest` is performed, and the function returns 0. -/
theorem consumer_close_ends_loop (env : Env) (fifo_path device_path : String)
    (baudrate buffer_size : Int) (pre rest : List Poll) (p : Poll)
    (hreach : env.reaches_loop)
    (hpolls : env.polls = pre ++ p :: rest)
    (hpre : (capture_loop env.endian env.strerror buffer_size pre).2 = false)
    (hread : 0 < p.bytes_read)
    (hfail : (p.header_written.ret = -1 ∧ fifo_closed p.header_written.errno = true) ∨
      (p.header_written.ret ≠ -1 ∧ p.data_written.ret = -1 ∧
        fifo_closed p.data_written.errno = true)) :
    (run_extcap_capture env fifo_path device_path baudrate buffer_size).outcome = .returned 0 ∧
    (run_extcap_capture env fifo_path device_path baudrate buffer_size).events =
      setup_events env fifo_path device_path baudrate ++
        (capture_loop env.endian env.strerror buffer_size pre).1 ++
        (if p.header_written.ret = -1 then
          [.read_uart buffer_size p.bytes_read,
           .write_fifo ((pkt_header p.micros p.bytes_read).bytes env.endian) p.header_written]
        else
          [.read_uart buffer_size p.bytes_read,
           .write_fifo ((pkt_header p.micros p.bytes_read).bytes env.endian) p.header_written,
           .write_fifo (p.buffer.take p.bytes_read.toNat) p.data_written]) ++
        [.close_uart, .close_fifo] := by
  have hl : capture_loop env.endian env.strerror buffer_size (p :: rest) =
      ((if p.header_written.ret = -1 then
          [.read_uart buffer_size p.bytes_read,
           .write_fifo ((pkt_header p.micros p.bytes_read).bytes env.endian) p.header_written]
        else
          [.read_uart buffer_size p.bytes_read,
           .write_fifo ((pkt_header p.micros p.bytes_read).bytes env.endian) p.header_written,
           .write_fifo (p.buffer.take p.bytes_read.toNat) p.data_written]), true) := by
    rcases hfail with ⟨h1, h2⟩ | ⟨h1, h2, h3⟩
    · simp [capture_loop, hread, h1, h2]
    · simp [capture_loop, hread, h1, h2, h3]
  rw [run_extcap_capture_loop env _ _ _ _ hreach, hpolls,
    capture_loop_append _ _ _ _ _ hpre, hl]
  simp

/-- The payload write of the second record fails with `EPIPE`; a third read is pending. -/
theorem consumer_close_ends_loop_witness :
    (run_extcap_capture
        (sample_env [⟨3, [1, 2, 3, 4, 5, 6], 1700000000123456, ⟨16, 0⟩, ⟨3, 0⟩⟩,
          ⟨2, [9, 8, 3, 4, 5, 6], 1700000001000001, ⟨16, 0⟩, ⟨-1, 32⟩⟩,
          ⟨1, [7, 8, 3, 4, 5, 6], 1700000002000000, ⟨16, 0⟩, ⟨1, 0⟩⟩])
        "/tmp/f" "/dev/ttyUSB0" 12000000 6).outcome = .returned 0 :=
  (consumer_close_ends_loop
    (sample_env [⟨3, [1, 2, 3, 4, 5, 6], 1700000000123456, ⟨16, 0⟩, ⟨3, 0⟩⟩,
      ⟨2, [9, 8, 3, 4, 5, 6], 1700000001000001, ⟨16, 0⟩, ⟨-1, 32⟩⟩,
      ⟨1, [7, 8, 3, 4, 5, 6], 1700000002000000, ⟨16, 0⟩, ⟨1, 0⟩⟩])
    "/tmp/f" "/dev/ttyUSB0" 12000000 6
    [⟨3, [1, 2, 3, 4, 5, 6], 1700000000123456, ⟨16, 0⟩, ⟨3, 0⟩⟩]
    [⟨1, [7, 8, 3, 4, 5, 6], 1700000002000000, ⟨16, 0⟩, ⟨1, 0⟩⟩]
    ⟨2, [9, 8, 3, 4, 5, 6], 1700000001000001, ⟨16, 0⟩, ⟨-1, 32⟩⟩
    (by decide) rfl (by decide) (by decide) (by decide)).1

/-- C6 fails as stated: the FIFO opens and the write of the global header
returns -1 with `errno` `EBADF` (9), which is not `EPIPE` (32), the `errno` of a
write to a FIFO whose reading end has closed; the process exits with status 0,
not with a non-zero status. -/
theorem global_header_ebadf_exits_zero :
    EBADF = 9 ∧ EPIPE = 32 ∧
    0 ≤ ({ sample_env [] with global_header := ⟨-1, 9⟩ } : Env).fifo.ret ∧
    ({ sample_env [] with global_header := ⟨-1, 9⟩ } : Env).global_header.ret = -1 ∧
    run_extcap_capture { sample_env [] with global_header := ⟨-1, 9⟩ }
        "/tmp/f" "/dev/ttyUSB0" 12000000 6 =
      ⟨[.stdout "[INFO] Running extcap capture...\n", .open_fifo "/tmp/f",
        .stdout "[INFO] FIFO opened: /tmp/f\n",
        .write_fifo [212, 195, 178, 161, 2, 0, 4, 0, 0, 0, 0, 0, 0, 0, 0, 0, 255, 255, 0, 0,
          147, 0, 0, 0] ⟨-1, 9⟩],
       .exited 0⟩ := by
  decide

/-- C6 as amended: when the FIFO opens and the write of the global header
returns -1, the process exits in `write_pcap_global_header`: with status 0
when `errno` is `EPIPE` (32, the reading end has closed) or `EBADF` (9), and
with status 1 for every other `errno`; in both cases the only calls made on
the FIFO or the device are the `open` of the FIFO and that failed write, so no
record is written, the channel receives no byte and the device is not
opened. -/
theorem global_header_failure_status (env : Env) (fifo_path device_path : String)
    (baudrate buffer_size : Int)
    (hfifo : 0 ≤ env.fifo.ret) (hfail : env.global_header.ret = -1) :
    ((env.global_header.errno = 32 ∨ env.global_header.errno = 9) →
      (run_extcap_capture env fifo_path device_path baudrate buffer_size).outcome =
        .exited 0) ∧
    ((env.global_header.errno ≠ 32 ∧ env.global_header.errno ≠ 9) →
      (run_extcap_capture env fifo_path device_path baudrate buffer_size).outcome =
        .exited 1) ∧
    (run_extcap_capture env fifo_path device_path baudrate buffer_size).events.filter
        Event.is_syscall =
      [.open_fifo fifo_path,
       .write_fifo (PcapGlobalHeader.bytes env.endian {}) env.global_header] ∧
    channel (run_extcap_capture env fifo_path device_path baudrate buffer_size).events = [] ∧
    ∀ path, Event.open_uart path ∉
      (run_extcap_capture env fifo_path device_path baudrate buffer_size).events := by
  have n1 : ¬ env.fifo.ret < 0 := by omega
  have hcl : fifo_closed env.global_header.errno = true ↔
      (env.global_header.errno = 32 ∨ env.global_header.errno = 9) := by
    simp [fifo_closed, EPIPE, EBADF]
  have hrun :
      (run_extcap_capture env fifo_path device_path baudrate buffer_size).outcome =
        .exited (if fifo_closed env.global_header.errno = true then 0 else 1) ∧
      (run_extcap_capture env fifo_path device_path baudrate buffer_size).events.filter
          Event.is_syscall =
        [.open_fifo fifo_path,
         .write_fifo (PcapGlobalHeader.bytes env.endian {}) env.global_header] ∧
      channel (run_extcap_capture env fifo_path device_path baudrate buffer_size).events = [] ∧
      ∀ path, Event.open_uart path ∉
        (run_extcap_capture env fifo_path device_path baudrate buffer_size).events := by
    unfold run_extcap_capture write_pcap_global_header
    by_cases hc : fifo_closed env.global_header.errno = true <;>
      simp [n1, hfail, hc, channel, delivered, LOG_INFO, LOG_ERROR, Event.is_syscall]
  refine ⟨fun h => ?_, fun h => ?_, hrun.2⟩
  · rw [hrun.1, if_pos (hcl.mpr h)]
  · have hc : ¬ fifo_closed env.global_header.errno = true := by
      intro hc
      rcases hcl.mp hc with he | he
      · exact h.1 he
      · exact h.2 he
    rw [hrun.1, if_neg hc]

/-- The header write fails with `EPIPE` (32): exit status 0; with `EIO` (5): exit status 1. -/
theorem global_header_failure_status_witness :
    (run_extcap_capture { sample_env [] with global_header := ⟨-1, 32⟩ }
        "/tmp/f" "/dev/ttyUSB0" 12000000 6).outcome = .exited 0 ∧
    (run_extcap_capture { sample_env [] with global_header := ⟨-1, 5⟩ }
        "/tmp/f" "/dev/ttyUSB0" 12000000 6).outcome = .exited 1 :=
  ⟨(global_header_failure_status { sample_env [] with global_header := ⟨-1, 32⟩ }
      "/tmp/f" "/dev/ttyUSB0" 12000000 6 (by decide) (by decide)).1 (Or.inl rfl),
   (global_header_failure_status { sample_env [] with global_header := ⟨-1, 5⟩ }
      "/tmp/f" "/dev/ttyUSB0" 12000000 6 (by decide) (by decide)).2.1
      ⟨by decide, by decide⟩⟩

/-- C7 at the failing input: the record-header write of the first record fails
with `EIO` (5), which is not a closed FIFO; the source logs the error, leaves
the loop and returns 0. -/
theorem other_write_error_returns_zero :
    fifo_closed 5 = false ∧
    run_extcap_capture
        (sample_env [⟨3, [1, 2, 3, 4, 5, 6], 1700000000123456, ⟨-1, 5⟩, ⟨3, 0⟩⟩])
        "/tmp/f" "/dev/ttyUSB0" 12000000 6 =
      ⟨setup_events (sample_env []) "/tmp/f" "/dev/ttyUSB0" 12000000 ++
        [.read_uart 6 3,
         .write_fifo [0, 241, 83, 101, 64, 226, 1, 0, 3, 0, 0, 0, 3, 0, 0, 0] ⟨-1, 5⟩,
         .stderr "[ERROR] write() header failed: errno 5\n",
         .close_uart, .close_fifo],
       .returned 0⟩ := by
  decide

/-- C8 fails as stated: the FIFO opens, the device does not, the function
returns 1, and the channel has received the 24 bytes of the global header. -/
theorem device_open_failure_not_zero_bytes :
    0 ≤ ({ sample_env [] with uart := ⟨-1, 2⟩ } : Env).fifo.ret ∧
    ({ sample_env [] with uart := ⟨-1, 2⟩ } : Env).uart.ret < 0 ∧
    (run_extcap_capture { sample_env [] with uart := ⟨-1, 2⟩ }
        "/tmp/f" "/dev/ttyUSB0" 12000000 6).outcome = .returned 1 ∧
    channel (run_extcap_capture { sample_env [] with uart := ⟨-1, 2⟩ }
        "/tmp/f" "/dev/ttyUSB0" 12000000 6).events ≠ [] ∧
    (channel (run_extcap_capture { sample_env [] with uart := ⟨-1, 2⟩ }
        "/tmp/f" "/dev/ttyUSB0" 12000000 6).events).length = 24 := by
  decide

/-- C8 as amended: when the FIFO opens, the write of the global header does
not fail and the device does not open, the function returns 1, the global
header write is the only write made, and the channel has received the first
`ret` bytes of the global header and nothing else: no record. -/
theorem device_open_failure_after_header (env : Env) (fifo_path device_path : String)
    (baudrate buffer_size : Int)
    (hfifo : 0 ≤ env.fifo.ret) (hhdr : 0 ≤ env.global_header.ret) (huart : env.uart.ret < 0) :
    (run_extcap_capture env fifo_path device_path baudrate buffer_size).outcome = .returned 1 ∧
    writes (run_extcap_capture env fifo_path device_path baudrate buffer_size).events =
      [(PcapGlobalHeader.bytes env.endian {}, env.global_header)] ∧
    channel (run_extcap_capture env fifo_path device_path baudrate buffer_size).events =
      (PcapGlobalHeader.bytes env.endian {}).take env.global_header.ret.toNat := by
  have n1 : ¬ env.fifo.ret < 0 := by omega
  have n2 : ¬ env.global_header.ret = -1 := by omega
  unfold run_extcap_capture write_pcap_global_header
  simp [n1, n2, huart, hhdr, channel, delivered, writes, LOG_INFO, LOG_ERROR]

/-- The device fails to open after a complete header write: 24 bytes are on the channel. -/
theorem device_open_failure_after_header_witness :
    (run_extcap_capture { sample_env [] with uart := ⟨-1, 2⟩ }
        "/tmp/f" "/dev/ttyUSB0" 12000000 6).outcome = .returned 1 :=
  (device_open_failure_after_header { sample_env [] with uart := ⟨-1, 2⟩ }
    "/tmp/f" "/dev/ttyUSB0" 12000000 6 (by decide) (by decide) (by decide)).1

/-- The first pass finds `--capture` exactly when it is among the arguments. -/
theorem capture_requested_iff (args : List String) :
    capture_requested args = true ↔ "--capture" ∈ args := by
  induction args with
  | nil => simp [capture_requested]
  | cons a rest ih =>
    by_cases h : a = "--capture"
    · simp [capture_requested, h]
    · have h2 : ¬ "--capture" = a := fun e => h e.symm
      simp [capture_requested, h, h2, ih]

/-- A `LOG_INFO` line is not declaration text: it starts with `[INFO] `. -/
theorem no_declaration_LOG_INFO (msg : String) : (LOG_INFO msg).no_declaration = true := by
  simp [LOG_INFO, Event.no_declaration, is_declaration, String.data_append, List.isPrefixOf]

/-- A line of the argument dump is not declaration text: it starts with two blanks. -/
theorem no_declaration_argv_dump (i : Nat) (args : List String) :
    ∀ e ∈ argv_dump i args, e.no_declaration = true := by
  induction args generalizing i with
  | nil => simp [argv_dump]
  | cons a rest ih =>
    intro e he
    simp only [argv_dump, List.mem_cons] at he
    rcases he with rfl | he
    · simp [Event.no_declaration, is_declaration, String.data_append, List.isPrefixOf]
    · exact ih _ e he

/-- The start of `main` sends no declaration text to `std::cout`. -/
theorem no_declaration_startup (argv : List String) :
    ∀ e ∈ startup argv, e.no_declaration = true := by
  intro e he
  simp only [startup, List.mem_cons, List.mem_append, List.mem_singleton, List.not_mem_nil,
    or_false] at he
  rcases he with rfl | he | rfl
  · exact no_declaration_LOG_INFO _
  · exact no_declaration_argv_dump 0 argv e he
  · rfl

/-- With `--capture` among the arguments `main` skips the discovery block. -/
theorem main_args_capture (argv devices : List String) (h : "--capture" ∈ argv.tail) :
    main_args argv devices =
      (startup argv ++ (after_discovery true argv.tail).1, (after_discovery true argv.tail).2) := by
  have hc := (capture_requested_iff argv.tail).mpr h
  simp [main_args, hc]

/-- Whatever the discovery loop prints is one of the four declaration blocks. -/
theorem discovery_cases (devices : List String) (n : Nat) :
    ∀ args : List String, args.length ≤ n → ∀ out, discovery devices args = some out →
      out = interfaces_decl ∨ out = dlt_decl ∨ out = config_decl devices ∨ out = version_decl := by
  induction n with
  | zero =>
    intro args hlen out h
    cases args with
    | nil => simp [discovery] at h
    | cons a rest => simp at hlen
  | succ n ih =>
    intro args hlen out h
    cases args with
    | nil => simp [discovery] at h
    | cons a rest =>
      simp only [List.length_cons, Nat.add_le_add_iff_right] at hlen
      unfold discovery at h
      split_ifs at h with h1 h2 h3 h4
      · left; exact (Option.some.inj h).symm
      · cases rest with
        | nil => simp at h
        | cons iface rest2 =>
          simp only at h
          split_ifs at h with h5
          · right; left; exact (Option.some.inj h).symm
          · exact ih rest2 (by simp at hlen; omega) out h
      · right; right; left; exact (Option.some.inj h).symm
      · right; right; right; exact (Option.some.inj h).symm
      · exact ih rest hlen out h

/-- The start of `main` makes no call on the FIFO or the device. -/
theorem is_syscall_startup (argv : List String) : ∀ e ∈ startup argv, e.is_syscall = false := by
  have hd : ∀ (i : Nat) (args : List String), ∀ e ∈ argv_dump i args, e.is_syscall = false := by
    intro i args
    induction args generalizing i with
    | nil => simp [argv_dump]
    | cons a rest ih =>
      simp only [argv_dump, List.forall_mem_cons]
      exact ⟨rfl, ih _⟩
  intro e he
  simp only [startup, List.mem_cons, List.mem_append, List.mem_singleton, List.not_mem_nil,
    or_false] at he
  rcases he with rfl | he | rfl
  · rfl
  · exact hd 0 argv e he
  · rfl

/-- The discovery loop makes no call on the FIFO or the device. -/
theorem is_syscall_discovery (devices args : List String) (out : List Event)
    (h : discovery devices args = some out) : ∀ e ∈ out, e.is_syscall = false := by
  rcases discovery_cases devices args.length args (le_refl _) out h with rfl | rfl | rfl | rfl
  · simp [interfaces_decl, Event.is_syscall]
  · simp [dlt_decl, Event.is_syscall]
  · intro e he
    simp only [config_decl, List.mem_append, List.mem_cons, List.mem_singleton, List.mem_map,
      List.not_mem_nil, or_false] at he
    rcases he with (rfl | ⟨dev, _, rfl⟩) | rfl | rfl <;> rfl
  · simp [version_decl, Event.is_syscall]

/-- Without `--capture`, `main` ends in the discovery block or right after the second pass. -/
theorem main_args_discovery (argv devices : List String) (h : "--capture" ∉ argv.tail) :
    ((main_args argv devices).2 = .ret 0 ∨ (main_args argv devices).2 = .throw) ∧
      ∀ e ∈ (main_args argv devices).1, e.is_syscall = false := by
  have hc : capture_requested argv.tail = false := by
    rw [← Bool.not_eq_true, capture_requested_iff]
    exact h
  have hs := is_syscall_startup argv
  simp only [main_args, hc, Bool.false_eq_true, if_false]
  cases hd : discovery devices argv.tail with
  | some out =>
    exact ⟨Or.inl rfl, List.forall_mem_append.mpr ⟨hs, is_syscall_discovery _ _ _ hd⟩⟩
  | none =>
    simp only [after_discovery]
    cases parse_args argv.tail {} with
    | none => exact ⟨Or.inr rfl, by simpa using hs⟩
    | some opts => exact ⟨Or.inl rfl, by simpa using hs⟩

/-- C9: without `--capture` among `argv[1..]`, for any result `devices` of the
device enumerator, `main` does not call `run_extcap_capture`, none of its
effects is a call on the FIFO or the device, and its effects and the way it
ends are those of `main_args argv devices`, the same under every behaviour of
the operating system: it either returns 0 or is ended by the exception of
`std::stoi`. -/
theorem discovery_is_pure (argv devices : List String) (env : Env)
    (h : "--capture" ∉ argv.tail) :
    (∀ f d b s, (main_args argv devices).2 ≠ .capture f d b s) ∧
    (∀ e ∈ (main argv devices env).events, e.is_syscall = false) ∧
    (main argv devices env).events = (main_args argv devices).1 ∧
    ((main argv devices env).outcome = .returned 0 ∨
      (main argv devices env).outcome = .terminated) ∧
    ∀ env2, main argv devices env2 = main argv devices env := by
  obtain ⟨ha, hio⟩ := main_args_discovery argv devices h
  have hm : ∀ env3, main argv devices env3 =
      ⟨(main_args argv devices).1,
        if (main_args argv devices).2 = .ret 0 then .returned 0 else .terminated⟩ := by
    intro env3
    unfold main
    rcases hp : main_args argv devices with ⟨evs, act⟩
    rw [hp] at ha
    rcases ha with ha | ha <;> simp only at ha <;> subst ha <;> simp
  refine ⟨?_, ?_, ?_, ?_, ?_⟩
  · intro f d b s hcap
    rcases ha with ha | ha <;> rw [ha] at hcap <;> cases hcap
  · rw [hm env]
    exact hio
  · rw [hm env]
  · rw [hm env]
    rcases ha with ha | ha <;> simp [ha]
  · intro env2
    rw [hm env, hm env2]

/-- The configuration listing with one device present: returns 0 after four lines. -/
theorem discovery_is_pure_witness :
    (main ["extcap_uart", "--extcap-config"] ["/dev/ttyUSB0"] (sample_env [])).events =
      (main_args ["extcap_uart", "--extcap-config"] ["/dev/ttyUSB0"]).1 :=
  (discovery_is_pure ["extcap_uart", "--extcap-config"] ["/dev/ttyUSB0"] (sample_env [])
    (by decide)).2.2.1

/-- C4 fails as stated: `--capture` is given, neither `--fifo` nor
`--serial-device` is, and `main` does not return 1: `std::stoi("x")` throws in
the second pass and the exception leaves `main`. -/
theorem capture_without_fifo_can_throw :
    "--capture" ∈ ["extcap_uart", "--capture", "--baudrate", "x"].tail ∧
    "--fifo" ∉ ["extcap_uart", "--capture", "--baudrate", "x"] ∧
    "--serial-device" ∉ ["extcap_uart", "--capture", "--baudrate", "x"] ∧
    stoi "x" = none ∧
    (main ["extcap_uart", "--capture", "--baudrate", "x"] [] (sample_env [])).outcome =
      .terminated ∧
    (main ["extcap_uart", "--capture", "--baudrate", "x"] [] (sample_env [])).outcome ≠
      .returned 1 := by
  decide

/-- C4 as amended: when `--capture` is among `argv[1..]` and the second pass
completes with the options `opts` (no `std::stoi` exception),
`run_extcap_capture` is called if and only if `fifo_path` and
`selected_device` are both non-empty, and then with the parsed options; when
one of them is empty `main` returns 1 and none of its effects is a call on the
FIFO or the device. -/
theorem capture_requires_fifo_and_device (argv devices : List String) (env : Env)
    (opts : Options) (h : "--capture" ∈ argv.tail) (hp : parse_args argv.tail {} = some opts) :
    ((∃ f d b s, (main_args argv devices).2 = .capture f d b s) ↔
      (opts.fifo_path ≠ "" ∧ opts.selected_device ≠ "")) ∧
    ((opts.fifo_path ≠ "" ∧ opts.selected_device ≠ "") →
      (main_args argv devices).2 =
        .capture opts.fifo_path opts.selected_device opts.baudrate opts.buffer_size) ∧
    ((opts.fifo_path = "" ∨ opts.selected_device = "") →
      (main argv devices env).outcome = .returned 1 ∧
        ∀ e ∈ (main argv devices env).events, e.is_syscall = false) := by
  have hm := main_args_capture argv devices h
  have hs := is_syscall_startup argv
  by_cases hb : opts.fifo_path ≠ "" ∧ opts.selected_device ≠ ""
  · have ha : (main_args argv devices).2 =
        .capture opts.fifo_path opts.selected_device opts.baudrate opts.buffer_size := by
      rw [hm]
      simp [after_discovery, hp, hb]
    refine ⟨⟨fun _ => hb, fun _ => ⟨_, _, _, _, ha⟩⟩, fun _ => ha, ?_⟩
    intro hne
    rcases hne with hne | hne
    · exact absurd hne hb.1
    · exact absurd hne hb.2
  · have ha : main_args argv devices =
        (startup argv ++ (capture_log opts ++
          [LOG_ERROR "FIFO path or UART device not specified."]), .ret 1) := by
      rw [hm]
      simp [after_discovery, hp, hb]
    refine ⟨⟨?_, fun hh => absurd hh hb⟩, fun hh => absurd hh hb, ?_⟩
    · rintro ⟨f, d, b, s, hcap⟩
      rw [ha] at hcap
      cases hcap
    · intro _
      simp only [main, ha]
      refine ⟨trivial, ?_⟩
      refine List.forall_mem_append.mpr ⟨hs, ?_⟩
      simp [capture_log, LOG_INFO, LOG_ERROR, Event.is_syscall]

/-- Capture with a FIFO path and no device: `main` returns 1. -/
theorem capture_requires_fifo_and_device_witness :
    (main ["extcap_uart", "--capture", "--fifo", "/tmp/f"] [] (sample_env [])).outcome =
      .returned 1 :=
  ((capture_requires_fifo_and_device ["extcap_uart", "--capture", "--fifo", "/tmp/f"] []
    (sample_env []) ⟨"/tmp/f", "", 12000000, 6⟩ (by decide) (by decide)).2.2
      (Or.inr rfl)).1

/-- C10 at the failing input `--extcap-interfaces`: the start-up message and
the argument dump are sent to `std::cout`, ahead of the two declarations, and
they are not declaration text. -/
theorem log_text_on_stdout :
    stdout_text (main ["extcap_uart", "--extcap-interfaces"] [] (sample_env [])).events =
      ["[INFO] FPGA UART Extcap started\n",
       "  argv[0] = extcap_uart\n",
       "  argv[1] = --extcap-interfaces\n",
       "extcap \x7bversion=1.0\x7d\x7bhelp=https://example.com/help\x7d\n",
       "interface \x7bvalue=fpga_uart\x7d\x7bdisplay=FPGA UART Interface\x7d\n"] ∧
    is_declaration "[INFO] FPGA UART Extcap started\n" = false ∧
    is_declaration "  argv[0] = extcap_uart\n" = false ∧
    is_declaration "  argv[1] = --extcap-interfaces\n" = false := by
  decide

/-- Declarations of consecutive effects. -/
theorem declarations_append (a b : List Event) :
    declarations (a ++ b) = declarations a ++ declarations b := by
  simp [declarations, stdout_text, List.filterMap_append]

/-- Effects without declaration text contribute no declaration. -/
theorem declarations_eq_nil (evs : List Event) (h : ∀ e ∈ evs, e.no_declaration = true) :
    declarations evs = [] := by
  induction evs with
  | nil => rfl
  | cons e rest ih =>
    have he := h e (List.mem_cons_self _ _)
    have hr := ih (fun x hx => h x (List.mem_cons_of_mem _ hx))
    have hc : declarations (e :: rest) = declarations [e] ++ declarations rest :=
      declarations_append [e] rest
    rw [hc, hr, List.append_nil]
    cases e with
    | stdout text =>
      have hf : is_declaration text = false := by
        simpa [Event.no_declaration] using he
      simp only [declarations, stdout_text, List.filterMap_cons, List.filterMap_nil,
        List.filter_cons, hf, Bool.false_eq_true, if_false, List.filter_nil]
    | _ => rfl

/-- Without `--capture`, `main` is its start-up followed by the discovery loop
and, when that loop prints nothing, by the second pass. -/
theorem main_args_no_capture (argv devices : List String) (h : "--capture" ∉ argv.tail) :
    main_args argv devices =
      match discovery devices argv.tail with
      | some out => (startup argv ++ out, .ret 0)
      | none => (startup argv ++ (after_discovery false argv.tail).1,
          (after_discovery false argv.tail).2) := by
  have hc : capture_requested argv.tail = false := by
    rw [← Bool.not_eq_true, capture_requested_iff]
    exact h
  simp only [main_args, hc, Bool.false_eq_true, if_false]

/-- After the discovery loop, without capture mode, nothing more is printed. -/
theorem after_discovery_false_events (args : List String) :
    (after_discovery false args).1 = [] := by
  unfold after_discovery
  cases parse_args args {} <;> simp

/-- Without `--capture`, a discovery loop that prints `out` makes `main` return 0 after it. -/
theorem main_of_discovery (argv devices : List String) (env : Env) (out : List Event)
    (h : "--capture" ∉ argv.tail) (hd : discovery devices argv.tail = some out) :
    main argv devices env = ⟨startup argv ++ out, .returned 0⟩ := by
  simp [main, main_args_no_capture argv devices h, hd]

/-- The discovery loop passes over arguments that are no discovery flags. -/
theorem discovery_skip (devices pre args : List String)
    (hpre : ∀ a ∈ pre, is_discovery_flag a = false) :
    discovery devices (pre ++ args) = discovery devices args := by
  induction pre with
  | nil => rfl
  | cons a rest ih =>
    have ha := hpre a (List.mem_cons_self _ _)
    simp only [is_discovery_flag, Bool.or_eq_false_iff, decide_eq_false_iff_not] at ha
    obtain ⟨⟨⟨h1, h2⟩, h3⟩, h4⟩ := ha
    rw [List.cons_append, discovery.eq_def]
    simp only [h1, h2, h3, h4, if_false, false_and]
    exact ih (fun x hx => hpre x (List.mem_cons_of_mem _ hx))

/-- At an argument `--extcap-interface` followed by `name` the loop prints the
dlt declaration when `name` is `fpga_uart` and otherwise goes on behind `name`. -/
theorem discovery_interface (devices rest : List String) (name : String) :
    discovery devices ("--extcap-interface" :: name :: rest) =
      if name = "fpga_uart" then some dlt_decl else discovery devices rest := by
  rw [discovery.eq_def]
  simp [interface_name]

/-- At an argument `--extcap-config` the loop prints the configuration list. -/
theorem discovery_config (devices rest : List String) :
    discovery devices ("--extcap-config" :: rest) = some (config_decl devices) := by
  rw [discovery.eq_def]
  simp

/-- At an argument `--extcap-interfaces` the loop prints the interface list. -/
theorem discovery_interfaces (devices rest : List String) :
    discovery devices ("--extcap-interfaces" :: rest) = some interfaces_decl := by
  rw [discovery.eq_def]
  simp

/-- Without `--capture`, when the discovery loop prints nothing, the effects of
`main` are its start-up output. -/
theorem main_events_of_silent_discovery (argv devices : List String) (env : Env)
    (h : "--capture" ∉ argv.tail) (hd : discovery devices argv.tail = none) :
    (main argv devices env).events = startup argv := by
  have hma := main_args_no_capture argv devices h
  rw [hd] at hma
  simp only [] at hma
  unfold main
  rw [hma, after_discovery_false_events]
  simp only [List.append_nil]
  unfold after_discovery
  cases parse_args argv.tail {} <;> rfl

/-- C11 fails as stated: `--capture` is absent and the directive
`--extcap-interface fpga_uart` is given, behind `--extcap-config`; `main`
prints the configuration list and returns 0, and no dlt declaration is
emitted. -/
theorem interface_directive_behind_config_flag :
    "--capture" ∉ ["extcap_uart", "--extcap-config", "--extcap-interface", "fpga_uart"].tail ∧
    main ["extcap_uart", "--extcap-config", "--extcap-interface", "fpga_uart"] []
        (sample_env []) =
      ⟨startup ["extcap_uart", "--extcap-config", "--extcap-interface", "fpga_uart"] ++
        config_decl [], .returned 0⟩ ∧
    (∀ e ∈ dlt_decl,
      e ∉ (main ["extcap_uart", "--extcap-config", "--extcap-interface", "fpga_uart"] []
        (sample_env [])).events) := by
  decide

/-- C11 as amended: without `--capture`, at a directive `--extcap-interface
NAME` in front of which the arguments `pre` hold no discovery flag
(`--extcap-interfaces`, `--extcap-interface`, `--extcap-config`,
`--extcap-version`): when `NAME` is `fpga_uart`, `main` prints, after its
start-up output, the one line `dlt {number=147}{name=USER0}{display=User DLT 0}`,
which is the only declaration it emits, and returns 0; when `NAME` differs, the
directive prints nothing, the loop goes on with the arguments behind `NAME`,
and if those print nothing either `main` emits no declaration at all. -/
theorem select_interface_after_plain_args (prog name : String)
    (pre rest devices : List String) (env : Env)
    (hcap : "--capture" ∉ pre ++ name :: rest)
    (hpre : ∀ a ∈ pre, is_discovery_flag a = false) :
    (name = "fpga_uart" →
      main (prog :: (pre ++ "--extcap-interface" :: name :: rest)) devices env =
        ⟨startup (prog :: (pre ++ "--extcap-interface" :: name :: rest)) ++
          [.stdout "dlt \x7bnumber=147\x7d\x7bname=USER0\x7d\x7bdisplay=User DLT 0\x7d\n"],
          .returned 0⟩ ∧
      declarations
          (main (prog :: (pre ++ "--extcap-interface" :: name :: rest)) devices env).events =
        ["dlt \x7bnumber=147\x7d\x7bname=USER0\x7d\x7bdisplay=User DLT 0\x7d\n"]) ∧
    (name ≠ "fpga_uart" →
      discovery devices (pre ++ "--extcap-interface" :: name :: rest) =
        discovery devices rest ∧
      (discovery devices rest = none →
        declarations
            (main (prog :: (pre ++ "--extcap-interface" :: name :: rest)) devices env).events
          = [])) := by
  have hc : "--capture" ∉ (prog :: (pre ++ "--extcap-interface" :: name :: rest)).tail := by
    intro hmem
    simp only [List.tail_cons, List.mem_append, List.mem_cons] at hmem
    rcases hmem with hmem | hmem | hmem | hmem
    · exact hcap (List.mem_append.mpr (Or.inl hmem))
    · exact absurd hmem (by decide)
    · exact hcap (List.mem_append.mpr (Or.inr (List.mem_cons.mpr (Or.inl hmem))))
    · exact hcap (List.mem_append.mpr (Or.inr (List.mem_cons.mpr (Or.inr hmem))))
  have hst := declarations_eq_nil _
    (no_declaration_startup (prog :: (pre ++ "--extcap-interface" :: name :: rest)))
  have hskip : discovery devices (prog :: (pre ++ "--extcap-interface" :: name :: rest)).tail =
      if name = "fpga_uart" then some dlt_decl else discovery devices rest := by
    rw [List.tail_cons, discovery_skip devices pre _ hpre, discovery_interface]
  constructor
  · intro hn
    rw [if_pos hn] at hskip
    have hm := main_of_discovery _ devices env _ hc hskip
    refine ⟨hm, ?_⟩
    rw [hm]
    simp only []
    rw [declarations_append, hst]
    decide
  · intro hn
    rw [if_neg hn] at hskip
    refine ⟨by rw [← hskip, List.tail_cons], ?_⟩
    intro hnone
    rw [main_events_of_silent_discovery _ devices env hc (hskip.trans hnone), hst]

/-- The directive behind an unrelated argument, the interface `fpga_uart`
selected: the dlt line is the only declaration. -/
theorem select_interface_after_plain_args_witness :
    declarations (main ("extcap_uart" :: (["--verbose"] ++
        "--extcap-interface" :: "fpga_uart" :: ["--extcap-config"])) []
        (sample_env [])).events
      = ["dlt \x7bnumber=147\x7d\x7bname=USER0\x7d\x7bdisplay=User DLT 0\x7d\n"] :=
  ((select_interface_after_plain_args "extcap_uart" "fpga_uart" ["--verbose"]
    ["--extcap-config"] [] (sample_env []) (by decide) (by decide)).1 rfl).2

/-- A `value` line is declaration text. -/
theorem is_declaration_value (dev : String) :
    is_declaration ("value \x7barg=0\x7d\x7bvalue=" ++ dev ++ "\x7d\x7bdisplay=" ++ dev ++
      "\x7d\n") = true := by
  simp [is_declaration, String.data_append, List.isPrefixOf]

/-- The declarations of the configuration list are all its lines. -/
theorem declarations_config_decl (devices : List String) :
    declarations (config_decl devices) =
      ["arg \x7bnumber=0\x7d\x7bcall=--serial-device\x7d\x7bdisplay=Serial Device\x7d\x7btooltip=Select the UART device\x7d\x7btype=selector\x7d\x7brequired=true\x7d\x7bgroup=UART\x7d\n"] ++
      devices.map (fun dev =>
        "value \x7barg=0\x7d\x7bvalue=" ++ dev ++ "\x7d\x7bdisplay=" ++ dev ++ "\x7d\n") ++
      ["arg \x7bnumber=1\x7d\x7bcall=--baudrate\x7d\x7bdisplay=Baud Rate\x7d\x7btooltip=Set the UART baud rate (e.g. 12000000)\x7d\x7btype=string\x7d\x7bdefault=12000000\x7d\x7bgroup=UART\x7d\n",
       "arg \x7bnumber=2\x7d\x7bcall=--buffer-size\x7d\x7bdisplay=Buffer Size\x7d\x7btooltip=Set the buffer size (e.g. 6)\x7d\x7btype=string\x7d\x7bdefault=6\x7d\x7bgroup=UART\x7d\n"] := by
  have hv : declarations (devices.map value_decl) = devices.map (fun dev =>
      "value \x7barg=0\x7d\x7bvalue=" ++ dev ++ "\x7d\x7bdisplay=" ++ dev ++ "\x7d\n") := by
    induction devices with
    | nil => rfl
    | cons d rest ih =>
      have hc : declarations (value_decl d :: rest.map value_decl) =
          declarations [value_decl d] ++ declarations (rest.map value_decl) :=
        declarations_append [value_decl d] _
      rw [List.map_cons, hc, ih, List.map_cons]
      simp only [declarations, stdout_text, value_decl, List.filterMap_cons, List.filterMap_nil,
        List.filter_cons, is_declaration_value, if_true, List.filter_nil, List.singleton_append]
  unfold config_decl
  rw [declarations_append, declarations_append, hv]
  have h1 : declarations
      [.stdout ("arg \x7bnumber=0\x7d\x7bcall=--serial-device\x7d\x7bdisplay=Serial Device\x7d" ++
        "\x7btooltip=Select the UART device\x7d\x7btype=selector\x7d\x7brequired=true\x7d\x7bgroup=UART\x7d\n")] =
      ["arg \x7bnumber=0\x7d\x7bcall=--serial-device\x7d\x7bdisplay=Serial Device\x7d\x7btooltip=Select the UART device\x7d\x7btype=selector\x7d\x7brequired=true\x7d\x7bgroup=UART\x7d\n"] := by
    decide
  rw [h1]
  congr 1

/-- C12: without `--capture`, when `main` reaches the `--extcap-config`
directive (first in the argument list) and the device enumerator returns
`devices`, it prints, after its start-up output, the `--serial-device`
selector declaration, one `value` line per element of `devices` in the
enumerator's order carrying that identifier (none when `devices` is empty),
then the `--baudrate` option with default 12000000 and the `--buffer-size`
option with default 6, and returns 0; these lines are all the declarations it
emits. -/
theorem config_listing (prog : String) (rest devices : List String) (env : Env)
    (h : "--capture" ∉ rest) :
    main (prog :: "--extcap-config" :: rest) devices env =
      ⟨startup (prog :: "--extcap-config" :: rest) ++
        ([.stdout "arg \x7bnumber=0\x7d\x7bcall=--serial-device\x7d\x7bdisplay=Serial Device\x7d\x7btooltip=Select the UART device\x7d\x7btype=selector\x7d\x7brequired=true\x7d\x7bgroup=UART\x7d\n"] ++
        devices.map (fun dev => Event.stdout
          ("value \x7barg=0\x7d\x7bvalue=" ++ dev ++ "\x7d\x7bdisplay=" ++ dev ++ "\x7d\n")) ++
        [.stdout "arg \x7bnumber=1\x7d\x7bcall=--baudrate\x7d\x7bdisplay=Baud Rate\x7d\x7btooltip=Set the UART baud rate (e.g. 12000000)\x7d\x7btype=string\x7d\x7bdefault=12000000\x7d\x7bgroup=UART\x7d\n",
         .stdout "arg \x7bnumber=2\x7d\x7bcall=--buffer-size\x7d\x7bdisplay=Buffer Size\x7d\x7btooltip=Set the buffer size (e.g. 6)\x7d\x7btype=string\x7d\x7bdefault=6\x7d\x7bgroup=UART\x7d\n"]),
        .returned 0⟩ ∧
    declarations (main (prog :: "--extcap-config" :: rest) devices env).events =
      ["arg \x7bnumber=0\x7d\x7bcall=--serial-device\x7d\x7bdisplay=Serial Device\x7d\x7btooltip=Select the UART device\x7d\x7btype=selector\x7d\x7brequired=true\x7d\x7bgroup=UART\x7d\n"] ++
      devices.map (fun dev =>
        "value \x7barg=0\x7d\x7bvalue=" ++ dev ++ "\x7d\x7bdisplay=" ++ dev ++ "\x7d\n") ++
      ["arg \x7bnumber=1\x7d\x7bcall=--baudrate\x7d\x7bdisplay=Baud Rate\x7d\x7btooltip=Set the UART baud rate (e.g. 12000000)\x7d\x7btype=string\x7d\x7bdefault=12000000\x7d\x7bgroup=UART\x7d\n",
       "arg \x7bnumber=2\x7d\x7bcall=--buffer-size\x7d\x7bdisplay=Buffer Size\x7d\x7btooltip=Set the buffer size (e.g. 6)\x7d\x7btype=string\x7d\x7bdefault=6\x7d\x7bgroup=UART\x7d\n"] := by
  have hcap : "--capture" ∉ (prog :: "--extcap-config" :: rest).tail := by
    intro hmem
    simp only [List.tail_cons, List.mem_cons] at hmem
    rcases hmem with hmem | hmem
    · exact absurd hmem (by decide)
    · exact h hmem
  have hd : discovery devices (prog :: "--extcap-config" :: rest).tail =
      some (config_decl devices) := by
    rw [List.tail_cons, discovery_config]
  have hm := main_of_discovery _ devices env _ hcap hd
  have hst := declarations_eq_nil _ (no_declaration_startup (prog :: "--extcap-config" :: rest))
  constructor
  · rw [hm]
    rfl
  · rw [hm]
    simp only []
    rw [declarations_append, hst, declarations_config_decl]
    rfl

/-- Two devices: two `value` lines, in the enumerator's order. -/
theorem config_listing_witness :
    declarations (main ["extcap_uart", "--extcap-config"] ["/dev/ttyUSB1", "/dev/ttyUSB0"]
        (sample_env [])).events =
      ["arg \x7bnumber=0\x7d\x7bcall=--serial-device\x7d\x7bdisplay=Serial Device\x7d\x7btooltip=Select the UART device\x7d\x7btype=selector\x7d\x7brequired=true\x7d\x7bgroup=UART\x7d\n",
       "value \x7barg=0\x7d\x7bvalue=/dev/ttyUSB1\x7d\x7bdisplay=/dev/ttyUSB1\x7d\n",
       "value \x7barg=0\x7d\x7bvalue=/dev/ttyUSB0\x7d\x7bdisplay=/dev/ttyUSB0\x7d\n",
       "arg \x7bnumber=1\x7d\x7bcall=--baudrate\x7d\x7bdisplay=Baud Rate\x7d\x7btooltip=Set the UART baud rate (e.g. 12000000)\x7d\x7btype=string\x7d\x7bdefault=12000000\x7d\x7bgroup=UART\x7d\n",
       "arg \x7bnumber=2\x7d\x7bcall=--buffer-size\x7d\x7bdisplay=Buffer Size\x7d\x7btooltip=Set the buffer size (e.g. 6)\x7d\x7btype=string\x7d\x7bdefault=6\x7d\x7bgroup=UART\x7d\n"] :=
  (config_listing "extcap_uart" [] ["/dev/ttyUSB1", "/dev/ttyUSB0"] (sample_env [])
    (by decide)).2.trans (by decide)

/-- C13 fails as stated: `--capture` is absent and `--extcap-interfaces` is
present, behind `--extcap-config`; `main` prints the configuration list and
returns 0, and the interface list is not emitted. -/
theorem later_interfaces_flag_not_served :
    "--capture" ∉ ["extcap_uart", "--extcap-config", "--extcap-interfaces"].tail ∧
    "--extcap-interfaces" ∈ ["extcap_uart", "--extcap-config", "--extcap-interfaces"].tail ∧
    main ["extcap_uart", "--extcap-config", "--extcap-interfaces"] [] (sample_env []) =
      ⟨startup ["extcap_uart", "--extcap-config", "--extcap-interfaces"] ++ config_decl [],
        .returned 0⟩ ∧
    (∀ e ∈ interfaces_decl,
      e ∉ (main ["extcap_uart", "--extcap-config", "--extcap-interfaces"] []
        (sample_env [])).events) := by
  decide

/-- C13 as amended: without `--capture`, the phase is chosen by the first
discovery flag in argument order.  When the arguments `pre` in front of it
hold no discovery flag (`--extcap-interfaces`, `--extcap-interface`,
`--extcap-config`, `--extcap-version`), then, whatever follows,
`--extcap-interfaces` makes `main` print the interface list,
`--extcap-interface fpga_uart` the dlt declaration and `--extcap-config` the
configuration list, each after the start-up output and with return value 0. -/
theorem first_discovery_flag_decides (prog : String) (pre rest devices : List String)
    (env : Env) (hcap : "--capture" ∉ pre ++ rest)
    (hpre : ∀ a ∈ pre, is_discovery_flag a = false) :
    main (prog :: (pre ++ "--extcap-interfaces" :: rest)) devices env =
      ⟨startup (prog :: (pre ++ "--extcap-interfaces" :: rest)) ++ interfaces_decl,
        .returned 0⟩ ∧
    main (prog :: (pre ++ "--extcap-interface" :: "fpga_uart" :: rest)) devices env =
      ⟨startup (prog :: (pre ++ "--extcap-interface" :: "fpga_uart" :: rest)) ++ dlt_decl,
        .returned 0⟩ ∧
    main (prog :: (pre ++ "--extcap-config" :: rest)) devices env =
      ⟨startup (prog :: (pre ++ "--extcap-config" :: rest)) ++ config_decl devices,
        .returned 0⟩ := by
  have hc : ∀ flags : List String, "--capture" ∉ flags →
      "--capture" ∉ (prog :: (pre ++ (flags ++ rest))).tail := by
    intro flags hf hmem
    simp only [List.tail_cons, List.mem_append] at hmem
    rcases hmem with hmem | hmem | hmem
    · exact hcap (List.mem_append.mpr (Or.inl hmem))
    · exact hf hmem
    · exact hcap (List.mem_append.mpr (Or.inr hmem))
  refine ⟨?_, ?_, ?_⟩
  · apply main_of_discovery _ devices env _ (hc ["--extcap-interfaces"] (by decide))
    rw [List.tail_cons, discovery_skip devices pre _ hpre]
    exact discovery_interfaces devices rest
  · apply main_of_discovery _ devices env _
      (hc ["--extcap-interface", "fpga_uart"] (by decide))
    rw [List.tail_cons, discovery_skip devices pre _ hpre]
    simp [discovery_interface]
  · apply main_of_discovery _ devices env _ (hc ["--extcap-config"] (by decide))
    rw [List.tail_cons, discovery_skip devices pre _ hpre]
    exact discovery_config devices rest

/-- The configuration flag in front of the interface-list flag, behind an unrelated argument. -/
theorem first_discovery_flag_decides_witness :
    main ("extcap_uart" :: (["--verbose"] ++ "--extcap-config" :: ["--extcap-interfaces"])) []
        (sample_env []) =
      ⟨startup ("extcap_uart" :: (["--verbose"] ++ "--extcap-config" :: ["--extcap-interfaces"]))
        ++ config_decl [], .returned 0⟩ :=
  (first_discovery_flag_decides "extcap_uart" ["--verbose"] ["--extcap-interfaces"] []
    (sample_env []) (by decide) (by decide)).2.2

/-- The loop is left only in an iteration that read data and had a write return -1. -/
theorem capture_loop_broke (o : Endian) (s : Nat → String) (bs : Int) (polls : List Poll)
    (h : (capture_loop o s bs polls).2 = true) :
    ∃ p ∈ polls, 0 < p.bytes_read ∧ (p.header_written.ret = -1 ∨ p.data_written.ret = -1) := by
  induction polls with
  | nil => simp [capture_loop] at h
  | cons p rest ih =>
    by_cases h0 : 0 < p.bytes_read
    · by_cases h1 : p.header_written.ret = -1
      · exact ⟨p, List.mem_cons_self _ _, h0, Or.inl h1⟩
      · by_cases h2 : p.data_written.ret = -1
        · exact ⟨p, List.mem_cons_self _ _, h0, Or.inr h2⟩
        · simp only [capture_loop, h0, h1, h2, if_true, if_false] at h
          obtain ⟨q, hq, hq2⟩ := ih h
          exact ⟨q, List.mem_cons_of_mem _ hq, hq2⟩
    · simp only [capture_loop, h0, if_false] at h
      obtain ⟨q, hq, hq2⟩ := ih h
      exact ⟨q, List.mem_cons_of_mem _ hq, hq2⟩

/-- C15: in a run of `run_extcap_capture` that reached its loop, an iteration
whose read returns a value `<= 0` (0 or -1 alike) makes no write: it sleeps
1 ms and the loop goes on with the next iteration.  If the function returns,
some iteration read data and had a header or payload write return -1; hence
when no write fails the loop is still running after every finite sequence of
reads. -/
theorem only_failed_write_ends_loop (env : Env) (fifo_path device_path : String)
    (baudrate buffer_size : Int) (hreach : env.reaches_loop) :
    (∀ (p : Poll) (rest : List Poll), p.bytes_read ≤ 0 →
      capture_loop env.endian env.strerror buffer_size (p :: rest) =
        (.read_uart buffer_size p.bytes_read :: .sleep_ms 1 ::
          (capture_loop env.endian env.strerror buffer_size rest).1,
         (capture_loop env.endian env.strerror buffer_size rest).2)) ∧
    ((run_extcap_capture env fifo_path device_path baudrate buffer_size).outcome ≠ .running →
      ∃ p ∈ env.polls, 0 < p.bytes_read ∧
        (p.header_written.ret = -1 ∨ p.data_written.ret = -1)) ∧
    ((∀ p ∈ env.polls, 0 < p.bytes_read →
        p.header_written.ret ≠ -1 ∧ p.data_written.ret ≠ -1) →
      (run_extcap_capture env fifo_path device_path baudrate buffer_size).outcome = .running ∧
      (run_extcap_capture env fifo_path device_path baudrate buffer_size).events =
        setup_events env fifo_path device_path baudrate ++
          (capture_loop env.endian env.strerror buffer_size env.polls).1) := by
  have hrun := run_extcap_capture_loop env fifo_path device_path baudrate buffer_size hreach
  have key : (run_extcap_capture env fifo_path device_path baudrate buffer_size).outcome ≠
      .running → ∃ p ∈ env.polls, 0 < p.bytes_read ∧
        (p.header_written.ret = -1 ∨ p.data_written.ret = -1) := by
    intro hne
    apply capture_loop_broke env.endian env.strerror buffer_size
    by_contra hb
    rw [hrun, if_neg hb] at hne
    exact hne rfl
  refine ⟨?_, key, ?_⟩
  · intro p rest hp
    have h0 : ¬ 0 < p.bytes_read := by omega
    simp only [capture_loop, h0, if_false]
  · intro hall
    have hb : ¬ (capture_loop env.endian env.strerror buffer_size env.polls).2 = true := by
      intro hb
      obtain ⟨p, hp, h0, hw⟩ := capture_loop_broke _ _ _ _ hb
      obtain ⟨w1, w2⟩ := hall p hp h0
      rcases hw with hw | hw
      · exact w1 hw
      · exact w2 hw
    rw [hrun, if_neg hb]
    exact ⟨rfl, rfl⟩

/-- An empty read, a read error and a read of two bytes with complete writes: still running. -/
theorem only_failed_write_ends_loop_witness :
    (run_extcap_capture
        (sample_env [⟨0, [0, 0, 0, 0, 0, 0], 1700000000000000, ⟨0, 0⟩, ⟨0, 0⟩⟩,
          ⟨-1, [0, 0, 0, 0, 0, 0], 1700000000001000, ⟨0, 0⟩, ⟨0, 0⟩⟩,
          ⟨2, [9, 8, 0, 0, 0, 0], 1700000000002000, ⟨16, 0⟩, ⟨2, 0⟩⟩])
        "/tmp/f" "/dev/ttyUSB0" 12000000 6).outcome = .running :=
  ((only_failed_write_ends_loop
    (sample_env [⟨0, [0, 0, 0, 0, 0, 0], 1700000000000000, ⟨0, 0⟩, ⟨0, 0⟩⟩,
      ⟨-1, [0, 0, 0, 0, 0, 0], 1700000000001000, ⟨0, 0⟩, ⟨0, 0⟩⟩,
      ⟨2, [9, 8, 0, 0, 0, 0], 1700000000002000, ⟨16, 0⟩, ⟨2, 0⟩⟩])
    "/tmp/f" "/dev/ttyUSB0" 12000000 6 (by decide)).2.2 (by decide)).1

/-! ## The idle-timeout variant -/

namespace extcap_cpp

/-- The truncated quotient exceeds the timeout exactly from `IDLE_TIMEOUT_MS + 1` whole
milliseconds on. -/
theorem elapsed_gt_iff (k d : Int) (hk : 0 < k) :
    Int.tdiv d k > IDLE_TIMEOUT_MS ↔ (IDLE_TIMEOUT_MS + 1) * k ≤ d := by
  unfold IDLE_TIMEOUT_MS
  by_cases hd : 0 ≤ d
  · rw [Int.tdiv_eq_ediv hd (le_of_lt hk)]
    constructor
    · intro h
      have h1 : (300 + 1 : Int) ≤ d / k := by omega
      exact (Int.le_ediv_iff_mul_le hk).mp h1
    · intro h
      have h1 : (300 + 1 : Int) ≤ d / k := (Int.le_ediv_iff_mul_le hk).mpr h
      omega
  · have hneg : d < 0 := by omega
    have h1 : Int.tdiv d k ≤ 0 := by
      have h2 : Int.tdiv (-d) k = -(Int.tdiv d k) := Int.neg_tdiv d k
      have h3 : 0 ≤ Int.tdiv (-d) k := Int.tdiv_nonneg (by omega) (le_of_lt hk)
      omega
    constructor
    · intro h
      omega
    · intro h
      have : 0 < (300 + 1) * k := by positivity
      omega

/-- The last successful read after one more poll. -/
theorem last_success_concat (start : Int) (pre : List Poll) (p : Poll) :
    last_success start (pre ++ [p]) =
      if 0 < p.bytes_read then p.now else last_success start pre := by
  unfold last_success
  rw [List.reverse_append, List.reverse_singleton, List.singleton_append, List.find?_cons]
  by_cases h : 0 < p.bytes_read <;> simp [h]

/-- The loop over `pre ++ post`: it ends in `pre`, or goes on over `post` with
the `last_read_time` that `pre` leaves. -/
theorem idle_loop_append (k : Int) (t : Int) (pre post : List Poll) :
    capture_loop k t (pre ++ post) =
      match capture_loop k t pre with
      | (evs, .go t2) => (evs ++ (capture_loop k t2 post).1, (capture_loop k t2 post).2)
      | (evs, .stop) => (evs, .stop)
      | (evs, .kill) => (evs, .kill) := by
  induction pre generalizing t with
  | nil => simp [capture_loop]
  | cons p rest ih =>
    rw [List.cons_append]
    simp only [capture_loop]
    rcases hi : iteration k t p with ⟨evs, t2 | _ | _⟩
    · simp only []
      rw [ih t2]
      rcases capture_loop k t2 rest with ⟨evs2, t3 | _ | _⟩ <;> simp
    · rfl
    · rfl

/-- While no write has raised `SIGPIPE` and no poll has timed out, the loop is
running and its `last_read_time` is the time of the last successful read. -/
theorem idle_loop_running (k start : Int) (hk : 0 < k) (pre : List Poll)
    (hs : no_sigpipe pre)
    (h : ∀ a q b, pre = a ++ q :: b → ¬ timed_out k start a q) :
    (capture_loop k start pre).2 = .go (last_success start pre) := by
  induction pre using List.reverseRecOn with
  | nil => rfl
  | append_singleton init q ih =>
    have hinit := ih (fun x hx => hs x (List.mem_append.mpr (Or.inl hx)))
      (fun a x b hab => h a x (b ++ [q]) (by rw [hab]; simp))
    have hq : ¬ timed_out k start init q := h init q [] rfl
    have hw : 0 < q.bytes_read → ¬ (q.written.ret = -1 ∧ q.written.errno = EPIPE) :=
      hs q (List.mem_append.mpr (Or.inr (List.mem_singleton.mpr rfl)))
    rw [idle_loop_append, last_success_concat]
    rcases hl : capture_loop k start init with ⟨evs, t | _ | _⟩
    · rw [hl] at hinit
      simp only [Step.go.injEq] at hinit
      subst hinit
      simp only [capture_loop, iteration]
      by_cases h0 : 0 < q.bytes_read
      · simp [h0, hw h0]
      · have hno : ¬ Int.tdiv (q.now - last_success start init) k > IDLE_TIMEOUT_MS := by
          intro hgt
          exact hq ⟨by omega, (elapsed_gt_iff k _ hk).mp hgt⟩
        simp [h0, hno]
    · rw [hl] at hinit
      cases hinit
    · rw [hl] at hinit
      cases hinit

/-- A run that reaches the loop is its set-up followed by the loop; it returns
0 after closing both handles when the loop is left by `break`. -/
theorem idle_run_reaches_loop (env : Env) (fifo_path : String) (h : env.reaches_loop) :
    run_extcap_capture env fifo_path =
      match capture_loop env.ticks_per_ms env.start env.polls with
      | (lev, .stop) =>
        ⟨setup_events env fifo_path ++ lev ++ [.close_uart, .close_fifo], .returned 0⟩
      | (lev, .kill) => ⟨setup_events env fifo_path ++ lev, .killed_by_sigpipe⟩
      | (lev, .go _) => ⟨setup_events env fifo_path ++ lev, .running⟩ := by
  obtain ⟨h1, h2, h3, h4, h5⟩ := h
  have n2 : ¬ env.uart.ret < 0 := by omega
  have n3 : ¬ env.get_termios.ret < 0 := by omega
  have n4 : ¬ env.set_termios.ret < 0 := by omega
  have n5 : ¬ env.fifo.ret < 0 := by omega
  unfold run_extcap_capture configure_serial_port
  rcases hs : scan_dev env.dev_entries with _ | path
  · rw [hs] at h1
    exact absurd rfl h1
  · rw [hs] at h1
    simp only [Option.getD_some] at h1
    simp only [Option.getD_some, h1, n2, n3, n4, n5, if_false, setup_events, hs]
    rcases capture_loop env.ticks_per_ms env.start env.polls with ⟨lev, t | _ | _⟩ <;> simp

/-- No poll of a list has timed out: the same said of every way of splitting the list. -/
theorem no_timeout_split (k start : Int) (pre : List Poll) (h : no_timeout k start pre) :
    ∀ a q b, pre = a ++ q :: b → ¬ timed_out k start a q := by
  intro a q b hab
  subst hab
  have hi := h ⟨a.length, by simp⟩
  have hg : (a ++ q :: b)[a.length]? = some q := by
    rw [List.getElem?_append_right (le_refl _)]
    simp
  have hlt : a.length < (a ++ q :: b).length := by simp
  have hq : (a ++ q :: b)[a.length] = q := by
    rw [List.getElem?_eq_getElem hlt] at hg
    exact Option.some.inj hg
  simpa [hq] using hi

/-- C14 fails as stated, at two inputs on a nanosecond clock with the loop
starting at tick 0.  First: the first poll, 300.5 ms later, reads nothing; its
time exceeds the loop start by more than 300 ms, yet the truncated `elapsed`
is 300, the loop sleeps and is still running.  Second: the first poll reads
two bytes and the reader of the FIFO has closed (`write` answered with -1 and
`EPIPE`); `SIGPIPE` is not ignored in this file, so the process ends at that
write: a poll with `bytes_read > 0` ends the loop and the function does not
return 0. -/
theorem idle_loop_departs_from_claim :
    (sample_env [⟨0, [], 300500000, ⟨0, 0⟩⟩]).start ≤ 300500000 ∧
    IDLE_TIMEOUT_MS * (sample_env [⟨0, [], 300500000, ⟨0, 0⟩⟩]).ticks_per_ms <
      300500000 - (sample_env [⟨0, [], 300500000, ⟨0, 0⟩⟩]).start ∧
    run_extcap_capture (sample_env [⟨0, [], 300500000, ⟨0, 0⟩⟩]) "/tmp/f" =
      ⟨setup_events (sample_env []) "/tmp/f" ++ [.read_uart 512 0, .sleep_ms 1], .running⟩ ∧
    EPIPE = 32 ∧
    run_extcap_capture
        (sample_env [⟨2, [7, 8], 1000000, ⟨-1, 32⟩⟩, ⟨0, [], 400000000, ⟨0, 0⟩⟩]) "/tmp/f" =
      ⟨setup_events (sample_env []) "/tmp/f" ++
        [.read_uart 512 2, .write_fifo [7, 8] ⟨-1, 32⟩], .killed_by_sigpipe⟩ := by
  decide

/-- C14 as amended: in a run of the idle-timeout `run_extcap_capture` that
reached its loop, with `k > 0` clock ticks per millisecond, and as long as no
write to the FIFO raises `SIGPIPE`: an iteration that reads data writes it,
sets `last_read_time` to the time of that poll and does not leave the loop;
the loop is left exactly at the first poll that reads nothing
(`bytes_read <= 0`) when at least 301 whole milliseconds have passed since the
last successful read (or the loop start, if none), that is when the elapsed
time truncated to milliseconds exceeds 300: at such a poll, none before it
having timed out, the function makes no further read or write, closes both
handles and returns 0, and while no poll has timed out the loop is running. -/
theorem idle_timeout_without_sigpipe (env : Env) (fifo_path : String)
    (hreach : env.reaches_loop) (hk : 0 < env.ticks_per_ms) :
    (∀ (last_read_time : Int) (p : Poll), 0 < p.bytes_read →
      ¬ (p.written.ret = -1 ∧ p.written.errno = EPIPE) →
      iteration env.ticks_per_ms last_read_time p =
        ([.read_uart BUFFER_SIZE p.bytes_read,
          .write_fifo (p.buffer.take p.bytes_read.toNat) p.written], .go p.now)) ∧
    (∀ (pre rest : List Poll) (p : Poll), env.polls = pre ++ p :: rest →
      no_sigpipe pre →
      no_timeout env.ticks_per_ms env.start pre →
      timed_out env.ticks_per_ms env.start pre p →
      run_extcap_capture env fifo_path =
        ⟨setup_events env fifo_path ++ (capture_loop env.ticks_per_ms env.start pre).1 ++
          [.read_uart BUFFER_SIZE p.bytes_read] ++ [.close_uart, .close_fifo], .returned 0⟩) ∧
    (no_sigpipe env.polls → no_timeout env.ticks_per_ms env.start env.polls →
      (run_extcap_capture env fifo_path).outcome = .running) := by
  have hrun := idle_run_reaches_loop env fifo_path hreach
  refine ⟨?_, ?_, ?_⟩
  · intro last p hp hw
    simp [iteration, hp, hw]
  · intro pre rest p hpolls hsig hpre hp
    have hl := idle_loop_running env.ticks_per_ms env.start hk pre hsig
      (no_timeout_split _ _ _ hpre)
    have hgt : Int.tdiv (p.now - last_success env.start pre) env.ticks_per_ms >
        IDLE_TIMEOUT_MS := (elapsed_gt_iff _ _ hk).mpr hp.2
    have h0 : ¬ 0 < p.bytes_read := by
      have := hp.1
      omega
    rw [hrun, hpolls, idle_loop_append]
    rcases hc : capture_loop env.ticks_per_ms env.start pre with ⟨evs, t | _ | _⟩
    · rw [hc] at hl
      simp only [Step.go.injEq] at hl
      subst hl
      simp [capture_loop, iteration, h0, hgt]
    · rw [hc] at hl
      cases hl
    · rw [hc] at hl
      cases hl
  · intro hsig hno
    have hl := idle_loop_running env.ticks_per_ms env.start hk env.polls hsig
      (no_timeout_split _ _ _ hno)
    rw [hrun]
    rcases hc : capture_loop env.ticks_per_ms env.start env.polls with ⟨evs, t | _ | _⟩
    · rfl
    · rw [hc] at hl
      cases hl
    · rw [hc] at hl
      cases hl

/-- Ten bytes at 1 ms, then idle polls at 300 ms, 301.5 ms and 302 ms: the
loop ends at the poll at 302 ms and the poll behind it is not made. -/
theorem idle_timeout_without_sigpipe_witness :
    run_extcap_capture
        (sample_env [⟨10, [1, 2, 3, 4, 5, 6, 7, 8, 9, 10], 1000000, ⟨10, 0⟩⟩,
          ⟨0, [], 300000000, ⟨0, 0⟩⟩, ⟨0, [], 301500000, ⟨0, 0⟩⟩,
          ⟨0, [], 302000000, ⟨0, 0⟩⟩, ⟨0, [], 303000000, ⟨0, 0⟩⟩]) "/tmp/f" =
      ⟨setup_events (sample_env []) "/tmp/f" ++
        [.read_uart 512 10, .write_fifo [1, 2, 3, 4, 5, 6, 7, 8, 9, 10] ⟨10, 0⟩,
         .read_uart 512 0, .sleep_ms 1, .read_uart 512 0, .sleep_ms 1,
         .read_uart 512 0, .close_uart, .close_fifo], .returned 0⟩ :=
  ((idle_timeout_without_sigpipe
    (sample_env [⟨10, [1, 2, 3, 4, 5, 6, 7, 8, 9, 10], 1000000, ⟨10, 0⟩⟩,
      ⟨0, [], 300000000, ⟨0, 0⟩⟩, ⟨0, [], 301500000, ⟨0, 0⟩⟩,
      ⟨0, [], 302000000, ⟨0, 0⟩⟩, ⟨0, [], 303000000, ⟨0, 0⟩⟩]) "/tmp/f"
    (by decide) (by decide)).2.1
    [⟨10, [1, 2, 3, 4, 5, 6, 7, 8, 9, 10], 1000000, ⟨10, 0⟩⟩,
      ⟨0, [], 300000000, ⟨0, 0⟩⟩, ⟨0, [], 301500000, ⟨0, 0⟩⟩]
    [⟨0, [], 303000000, ⟨0, 0⟩⟩]
    ⟨0, [], 302000000, ⟨0, 0⟩⟩
    rfl (by decide) (by decide) (by decide)).trans (by decide)

end extcap_cpp

end Extcap
